import Mathlib

/-!
# AksNodePublicIPController: `helpers/armhelpers.go`

A shallow embedding of the Go package `helpers` and the properties of it that the
specification states.

Conventions of the embedding.

* A Go `string` is a `List Char` (`GoString`), its sequence of code points (strings are
  taken to be valid UTF-8); literals are written `"...".toList`.
* A Go pointer `*T` is an `Option T`; dereferencing `none` is the run-time panic
  `Panic.nilDereference`, indexing a slice out of range is `Panic.indexOutOfRange`.
* The Azure SDK structs are rendered with the fields the code reads or writes, each
  under its Go name.  A properties struct that a resource embeds by pointer is a field
  of the resource named after its type, so that a field promoted through it is reached
  by a dereference that panics when the resource carries no properties.  Every struct
  carries the rest of its content in a field `other` that the code never touches.
* The Azure control plane is a parameter: a state type `σ` and one handler per client
  method (`Azure σ`).  A run threads a `World σ`, the remote state together with the
  trace of client calls issued so far.
* `log.Infof` lines, the `context.Context` argument and the fixed resource group
  `spDetails.ResourceGroup` are not modelled; the client constructors (`getIPClient`,
  `getVMClient`, `getNicClient`, `getVmssClient`) only build a client value and issue no
  call.
-/

namespace Helpers

/-! ## Go values -/

/-- Go `string`. -/
abbrev GoString := List Char

/-- Run-time panics the code can raise. -/
inductive Panic where
  | nilDereference
  | indexOutOfRange
  deriving DecidableEq, Repr

/-- Go `error` values: errors reported by the Azure SDK (`remote`, with the HTTP status
code of the response) and errors built by `fmt.Errorf`, recorded by format string and
arguments in order (`wrapf` when a `%v` argument is itself an error). -/
inductive GoError where
  | remote (statusCode : Nat) (message : GoString)
  | errorf (format : String) (args : List GoString)
  | wrapf (format : String) (args : List GoString) (cause : GoError)
  deriving DecidableEq, Repr

/-- The remote reports that the resource does not exist (HTTP 404). -/
def GoError.isNotFound : GoError → Bool
  | .remote code _ => code == 404
  | _ => false

/-- Outcome of a Go function with results `(α, error)`: normal return with `err == nil`,
normal return with an error, or a panic. -/
inductive Ret (α : Type) where
  | ok (a : α)
  | err (e : GoError)
  | panic (p : Panic)
  deriving DecidableEq, Repr

/-- Dereference of a pointer. -/
def deref {α : Type} : Option α → Except Panic α
  | some a => .ok a
  | none => .error .nilDereference

/-- Slice indexing `xs[i]` with Go's bounds check. -/
def index {α : Type} (xs : List α) (i : Int) : Except Panic α :=
  if i < 0 then .error .indexOutOfRange
  else match xs.get? i.toNat with
    | some x => .ok x
    | none => .error .indexOutOfRange

/-! ## `regexp`: the fragment used by `scaleSetNameRE`

Go's `regexp` finds the leftmost match and, among the matches that start there, the one
a backtracking engine finds first.  The pattern of this package is a sequence of
literal characters, `.` (any character but a newline), greedy `.*` / `.+` and one
capturing group; `Inst` and `matchFrom` implement exactly that fragment. -/

/-- One element of a linear pattern. -/
inductive Inst where
  | char (c : Char)
  | anyNotNL
  | starAnyNotNL
  | capOpen
  | capClose
  deriving DecidableEq, Repr

/-- The literal characters of `s`. -/
def lits (s : String) : List Inst := s.toList.map Inst.char

/-- A successful match: the input left after the match and the text of group 1. -/
structure MatchResult where
  rest : List Char
  cap : List Char
  deriving DecidableEq, Repr

/-- Greedy `.*` followed by the continuation `k`: consume as many non-newline characters
as possible, giving characters back one at a time until `k` succeeds. -/
def star (k : List Char → Option MatchResult) : List Char → Option MatchResult
  | [] => k []
  | c :: cs =>
    if c = '\n' then k (c :: cs)
    else match star k cs with
      | some r => some r
      | none => k (c :: cs)

/-- Backtracking match of a pattern at the start of the input `s`; `cs` is the input at
the point where group 1 was opened, `cap` the text of group 1. -/
def matchFrom : List Inst → List Char → List Char → List Char → Option MatchResult
  | [], _, cap, s => some ⟨s, cap⟩
  | .char c :: r, cs, cap, s =>
    match s with
    | x :: s' => if x = c then matchFrom r cs cap s' else none
    | [] => none
  | .anyNotNL :: r, cs, cap, s =>
    match s with
    | x :: s' => if x = '\n' then none else matchFrom r cs cap s'
    | [] => none
  | .starAnyNotNL :: r, cs, cap, s => star (matchFrom r cs cap) s
  | .capOpen :: r, _, cap, s => matchFrom r s cap s
  | .capClose :: r, cs, _, s => matchFrom r cs (cs.take (cs.length - s.length)) s

/-- Go `(*Regexp).FindStringSubmatch` for a pattern with one group: the text of the leftmost
match and of group 1, or `nil` (the empty slice) when there is no match. -/
def FindStringSubmatch (re : List Inst) : List Char → List GoString
  | [] =>
    match matchFrom re [] [] [] with
    | some r => [[], r.cap]
    | none => []
  | c :: cs =>
    match matchFrom re [] [] (c :: cs) with
    | some r => [(c :: cs).take ((c :: cs).length - r.rest.length), r.cap]
    | none => FindStringSubmatch re cs

/-! ## Resource identifiers (armhelpers.go 15-26, 293-305) -/

/-- The pattern
`.*/subscriptions/(?:.*)/Microsoft.Compute/virtualMachineScaleSets/(.+)/virtualMachines(?:.*)`. -/
def scaleSetNameRE : List Inst :=
  [.starAnyNotNL] ++ lits "/subscriptions/" ++ [.starAnyNotNL]
    ++ lits "/Microsoft" ++ [.anyNotNL] ++ lits "Compute/virtualMachineScaleSets/"
    ++ [.capOpen, .anyNotNL, .starAnyNotNL, .capClose]
    ++ lits "/virtualMachines" ++ [.starAnyNotNL]

/-- The error value `fmt.Errorf("not a vmss instance")`. -/
def errNotVmss : GoError := .errorf "not a vmss instance" []

/-- Go `extractScaleSetNameByProviderID`: the pair `(name, err)`. -/
def extractScaleSetNameByProviderID (providerID : GoString) : GoString × Option GoError :=
  let submatches := FindStringSubmatch scaleSetNameRE providerID
  if submatches.length ≠ 2 then
    ([], some errNotVmss)
  else
    (submatches.getD 1 [], none)

/-- Go `strings.Split(s, sep)` for a one-character separator. -/
def stringsSplit (sep : Char) : List Char → List GoString
  | [] => [[]]
  | c :: cs =>
    if c = sep then [] :: stringsSplit sep cs
    else match stringsSplit sep cs with
      | [] => [[c]]
      | seg :: segs => (c :: seg) :: segs

/-- Go `getResourceName`: `parts[len(parts)-1]`. -/
def getResourceName (fullID : GoString) : Except Panic GoString :=
  let parts := stringsSplit '/' fullID
  index parts ((parts.length : Int) - 1)

/-- Go `getNICNameFromIPConfiguration`: `parts[len(parts)-3]`. -/
def getNICNameFromIPConfiguration (ipConfig : GoString) : Except Panic GoString :=
  let parts := stringsSplit '/' ipConfig
  index parts ((parts.length : Int) - 3)

/-! ## Azure resources

The structs of `azure-sdk-for-go` (`compute/mgmt/2018-10-01`, `network/mgmt/2017-09-01`)
that the code touches.  A resource keeps most of its content in a properties struct that
it embeds by pointer (as the literal of `createPublicIP` shows for `PublicIPAddress`); the
embedded field carries the name of its type, and a field read or written through it
panics when the pointer is nil. -/

/-- Content of an SDK struct that the code neither reads nor writes. -/
structure Other where
  raw : List Char
  deriving DecidableEq, Repr

/-- Go `network.IPVersion`. -/
inductive IPVersion where
  | unset
  | IPv4
  | IPv6
  deriving DecidableEq, Repr

/-- Go `network.IPAllocationMethod`. -/
inductive IPAllocationMethod where
  | unset
  | Static
  | Dynamic
  deriving DecidableEq, Repr

/-- Go `network.IPConfiguration`: the back-reference held by a public IP. -/
structure IPConfiguration where
  ID : Option GoString
  other : Other
  deriving DecidableEq, Repr

/-- Go `network.PublicIPAddressPropertiesFormat`. -/
structure PublicIPAddressPropertiesFormat where
  PublicIPAllocationMethod : IPAllocationMethod
  PublicIPAddressVersion : IPVersion
  IPConfiguration : Option IPConfiguration
  other : Other
  deriving DecidableEq, Repr

/-- Go `network.PublicIPAddress`. -/
structure PublicIPAddress where
  PublicIPAddressPropertiesFormat : Option PublicIPAddressPropertiesFormat
  ID : Option GoString
  Name : Option GoString
  Location : Option GoString
  other : Other
  deriving DecidableEq, Repr

/-- Go `network.InterfaceIPConfigurationPropertiesFormat`. -/
structure InterfaceIPConfigurationPropertiesFormat where
  PublicIPAddress : Option PublicIPAddress
  other : Other
  deriving DecidableEq, Repr

/-- Go `network.InterfaceIPConfiguration`. -/
structure InterfaceIPConfiguration where
  InterfaceIPConfigurationPropertiesFormat : Option InterfaceIPConfigurationPropertiesFormat
  ID : Option GoString
  other : Other
  deriving DecidableEq, Repr

/-- Go `network.InterfacePropertiesFormat`. -/
structure InterfacePropertiesFormat where
  IPConfigurations : Option (List InterfaceIPConfiguration)
  other : Other
  deriving DecidableEq, Repr

/-- Go `network.Interface`. -/
structure Interface where
  InterfacePropertiesFormat : Option InterfacePropertiesFormat
  ID : Option GoString
  other : Other
  deriving DecidableEq, Repr

/-- Go `compute.NetworkInterfaceReference`. -/
structure NetworkInterfaceReference where
  ID : Option GoString
  other : Other
  deriving DecidableEq, Repr

/-- Go `compute.NetworkProfile`. -/
structure NetworkProfile where
  NetworkInterfaces : Option (List NetworkInterfaceReference)
  deriving DecidableEq, Repr

/-- Go `compute.VirtualMachineProperties`. -/
structure VirtualMachineProperties where
  NetworkProfile : Option NetworkProfile
  other : Other
  deriving DecidableEq, Repr

/-- Go `compute.VirtualMachine`. -/
structure VirtualMachine where
  VirtualMachineProperties : Option VirtualMachineProperties
  other : Other
  deriving DecidableEq, Repr

/-- Go `compute.VirtualMachineScaleSetPublicIPAddressConfiguration`: the name and the
embedded properties (idle timeout, DNS settings). -/
structure VirtualMachineScaleSetPublicIPAddressConfiguration where
  Name : Option GoString
  VirtualMachineScaleSetPublicIPAddressConfigurationProperties : Option Other
  deriving DecidableEq, Repr

/-- Go `compute.VirtualMachineScaleSetIPConfigurationProperties`. -/
structure VirtualMachineScaleSetIPConfigurationProperties where
  PublicIPAddressConfiguration : Option VirtualMachineScaleSetPublicIPAddressConfiguration
  other : Other
  deriving DecidableEq, Repr

/-- Go `compute.VirtualMachineScaleSetIPConfiguration`. -/
structure VirtualMachineScaleSetIPConfiguration where
  VirtualMachineScaleSetIPConfigurationProperties :
    Option VirtualMachineScaleSetIPConfigurationProperties
  other : Other
  deriving DecidableEq, Repr

/-- Go `compute.VirtualMachineScaleSetNetworkConfigurationProperties`. -/
structure VirtualMachineScaleSetNetworkConfigurationProperties where
  IPConfigurations : Option (List VirtualMachineScaleSetIPConfiguration)
  other : Other
  deriving DecidableEq, Repr

/-- Go `compute.VirtualMachineScaleSetNetworkConfiguration`. -/
structure VirtualMachineScaleSetNetworkConfiguration where
  VirtualMachineScaleSetNetworkConfigurationProperties :
    Option VirtualMachineScaleSetNetworkConfigurationProperties
  other : Other
  deriving DecidableEq, Repr

/-- Go `compute.VirtualMachineScaleSetNetworkProfile`. -/
structure VirtualMachineScaleSetNetworkProfile where
  NetworkInterfaceConfigurations : Option (List VirtualMachineScaleSetNetworkConfiguration)
  other : Other
  deriving DecidableEq, Repr

/-- Go `compute.VirtualMachineScaleSetVMProfile`. -/
structure VirtualMachineScaleSetVMProfile where
  NetworkProfile : Option VirtualMachineScaleSetNetworkProfile
  other : Other
  deriving DecidableEq, Repr

/-- Go `compute.VirtualMachineScaleSetProperties`. -/
structure VirtualMachineScaleSetProperties where
  VirtualMachineProfile : Option VirtualMachineScaleSetVMProfile
  other : Other
  deriving DecidableEq, Repr

/-- Go `compute.VirtualMachineScaleSet`. -/
structure VirtualMachineScaleSet where
  VirtualMachineScaleSetProperties : Option VirtualMachineScaleSetProperties
  other : Other
  deriving DecidableEq, Repr

/-- Handle of a long-running operation (`azure.Future`). -/
structure Future where
  token : Nat
  deriving DecidableEq, Repr

/-! ## The control plane and the trace of client calls -/

/-- One call of a client method, with its arguments. -/
inductive Call where
  | vmGet (vmName : GoString)
  | nicGet (nicName : GoString)
  | nicCreateOrUpdate (nicName : GoString) (nic : Interface)
  | nicDelete (nicName : GoString)
  | ipGet (ipName : GoString)
  | ipCreateOrUpdate (ipName : GoString) (ip : PublicIPAddress)
  | ipDelete (ipName : GoString)
  | ipResult (future : Future)
  | vmssGet (scaleSet : GoString)
  | vmssCreateOrUpdate (scaleSet : GoString) (vmss : VirtualMachineScaleSet)
  | vmssUpdateInstances (scaleSet : GoString) (instanceIds : List GoString)
  | waitForCompletion (future : Future)
  deriving DecidableEq, Repr

/-- The call changes remote resources (create-or-update, delete, update-instances). -/
def Call.isMutation : Call → Bool
  | .nicCreateOrUpdate _ _ => true
  | .nicDelete _ => true
  | .ipCreateOrUpdate _ _ => true
  | .ipDelete _ => true
  | .vmssCreateOrUpdate _ _ => true
  | .vmssUpdateInstances _ _ => true
  | _ => false

/-- The call goes through the scale-set client or waits on one of its futures. -/
def Call.isScaleSetCall : Call → Bool
  | .vmssGet _ => true
  | .vmssCreateOrUpdate _ _ => true
  | .vmssUpdateInstances _ _ => true
  | .waitForCompletion _ => true
  | _ => false

/-- The Azure control plane over a remote state `σ`: what each client method answers and
how it changes the remote state.  `Get` methods only read. -/
structure Azure (σ : Type) where
  vmGet : σ → GoString → Except GoError VirtualMachine
  nicGet : σ → GoString → Except GoError Interface
  nicCreateOrUpdate : σ → GoString → Interface → σ × Except GoError Future
  nicDelete : σ → GoString → σ × Except GoError Future
  ipGet : σ → GoString → Except GoError PublicIPAddress
  ipCreateOrUpdate : σ → GoString → PublicIPAddress → σ × Except GoError Future
  ipDelete : σ → GoString → σ × Except GoError Future
  ipResult : σ → Future → σ × Except GoError PublicIPAddress
  vmssGet : σ → GoString → Except GoError VirtualMachineScaleSet
  vmssCreateOrUpdate : σ → GoString → VirtualMachineScaleSet → σ × Except GoError Future
  vmssUpdateInstances : σ → GoString → List GoString → σ × Except GoError Future
  waitForCompletion : σ → Future → σ × Option GoError

/-- Parts of the package that live outside `armhelpers.go`: the configured location
`spDetails.Location` and the function `GetPublicIPName`. -/
structure Env where
  Location : GoString
  GetPublicIPName : GoString → GoString

/-- Remote state and the client calls issued so far, oldest first. -/
structure World (σ : Type) where
  state : σ
  trace : List Call

/-- Record a read-only call. -/
def World.read {σ α : Type} (w : World σ) (c : Call) (answer : σ → α) : World σ × α :=
  (⟨w.state, w.trace ++ [c]⟩, answer w.state)

/-- Record a call that may change the remote state. -/
def World.call {σ α : Type} (w : World σ) (c : Call) (handler : σ → σ × α) : World σ × α :=
  (⟨(handler w.state).1, w.trace ++ [c]⟩, (handler w.state).2)
/-! ## The package functions (armhelpers.go 56-104, 115-291) -/

section Functions

variable {σ : Type}

/-- The resource literal that `createPublicIP` submits (armhelpers.go 62-69). -/
def publicIPParameters (env : Env) (ipName : GoString) : PublicIPAddress where
  PublicIPAddressPropertiesFormat := some
    { PublicIPAllocationMethod := .Dynamic
      PublicIPAddressVersion := .IPv4
      IPConfiguration := none
      other := ⟨[]⟩ }
  ID := none
  Name := some ipName
  Location := some env.Location
  other := ⟨[]⟩

/-- Go `createPublicIP`. -/
def createPublicIP (az : Azure σ) (env : Env) (ipName : GoString) (w : World σ) :
    World σ × Ret PublicIPAddress :=
  match w.call (.ipCreateOrUpdate ipName (publicIPParameters env ipName))
      (fun s => az.ipCreateOrUpdate s ipName (publicIPParameters env ipName)) with
  | (w1, .error err) => (w1, .err (.wrapf "cannot create Public IP address: %v" [] err))
  | (w1, .ok future) =>
    match w1.call (.waitForCompletion future) (fun s => az.waitForCompletion s future) with
    | (w2, some err) =>
      (w2, .err (.wrapf "cannot get Public IP address CreateOrUpdate method response: %v" [] err))
    | (w2, none) =>
      match w2.call (.ipResult future) (fun s => az.ipResult s future) with
      | (w3, .error err) => (w3, .err err)
      | (w3, .ok ip) => (w3, .ok ip)

/-- Go `getVM`. -/
def getVM (az : Azure σ) (vmName : GoString) (w : World σ) :
    World σ × Except GoError VirtualMachine :=
  w.read (.vmGet vmName) (fun s => az.vmGet s vmName)

/-- Go `getNetworkInterface`. -/
def getNetworkInterface (az : Azure σ) (vmName : GoString) (w : World σ) :
    World σ × Ret Interface :=
  match getVM az vmName w with
  | (w1, .error err) => (w1, .err err)
  | (w1, .ok vm) =>
    -- nicFullName := &(*vm.NetworkProfile.NetworkInterfaces)[0].ID ; **nicFullName
    let nicName : Except Panic GoString := do
      let properties ← deref vm.VirtualMachineProperties
      let networkProfile ← deref properties.NetworkProfile
      let networkInterfaces ← deref networkProfile.NetworkInterfaces
      let first ← index networkInterfaces 0
      let nicFullName ← deref first.ID
      getResourceName nicFullName
    match nicName with
    | .error p => (w1, .panic p)
    | .ok nicName =>
      match w1.read (.nicGet nicName) (fun s => az.nicGet s nicName) with
      | (w2, .error err) => (w2, .err err)
      | (w2, .ok networkInterface) => (w2, .ok networkInterface)

/-- Go `(*IPUpdate).UpdateVMSSPublicIP`. -/
def UpdateVMSSPublicIP (az : Azure σ) (scaleSet : GoString) (w : World σ) :
    World σ × Ret Unit :=
  match w.read (.vmssGet scaleSet) (fun s => az.vmssGet s scaleSet) with
  | (w1, .error err) => (w1, .err (.wrapf "failed to get vmss %q: %v" [scaleSet] err))
  | (w1, .ok vmss) =>
    -- vmss.VirtualMachineProfile != nil, read through the embedded properties
    match vmss.VirtualMachineScaleSetProperties with
    | none => (w1, .panic .nilDereference)
    | some properties =>
    match properties.VirtualMachineProfile with
    | none => (w1, .ok ())
    | some vmProfile =>
    match vmProfile.NetworkProfile with
    | none => (w1, .ok ())
    | some networkProfile =>
    match networkProfile.NetworkInterfaceConfigurations with
    | none => (w1, .ok ())
    | some ifaces =>
    -- if len(ifaces) > 0 && ifaces[0].IPConfigurations != nil
    match ifaces with
    | [] => (w1, .ok ())
    | iface0 :: ifacesRest =>
    match iface0.VirtualMachineScaleSetNetworkConfigurationProperties with
    | none => (w1, .panic .nilDereference)
    | some ifaceProperties =>
    match ifaceProperties.IPConfigurations with
    | none => (w1, .ok ())
    | some ips =>
    -- ips[0].PublicIPAddressConfiguration = &..., written through the embedded properties
    match ips with
    | [] => (w1, .panic .indexOutOfRange)
    | ip0 :: ipsRest =>
    match ip0.VirtualMachineScaleSetIPConfigurationProperties with
    | none => (w1, .panic .nilDereference)
    | some ipProperties =>
      let template : VirtualMachineScaleSetPublicIPAddressConfiguration :=
        { Name := some (scaleSet ++ "_public_ip".toList)
          VirtualMachineScaleSetPublicIPAddressConfigurationProperties := none }
      let ipProperties1 : VirtualMachineScaleSetIPConfigurationProperties :=
        { ipProperties with PublicIPAddressConfiguration := some template }
      let ips1 :=
        { ip0 with VirtualMachineScaleSetIPConfigurationProperties := some ipProperties1 }
          :: ipsRest
      -- ifaces[0].IPConfigurations = &ips
      let ifaceProperties1 : VirtualMachineScaleSetNetworkConfigurationProperties :=
        { ifaceProperties with IPConfigurations := some ips1 }
      let ifaces1 :=
        { iface0 with VirtualMachineScaleSetNetworkConfigurationProperties :=
                        some ifaceProperties1 }
          :: ifacesRest
      -- vmss.VirtualMachineProfile.NetworkProfile.NetworkInterfaceConfigurations = &ifaces
      let networkProfile1 : VirtualMachineScaleSetNetworkProfile :=
        { networkProfile with NetworkInterfaceConfigurations := some ifaces1 }
      let vmProfile1 : VirtualMachineScaleSetVMProfile :=
        { vmProfile with NetworkProfile := some networkProfile1 }
      let properties1 : VirtualMachineScaleSetProperties :=
        { properties with VirtualMachineProfile := some vmProfile1 }
      let vmss1 : VirtualMachineScaleSet :=
        { vmss with VirtualMachineScaleSetProperties := some properties1 }
      match w1.call (.vmssCreateOrUpdate scaleSet vmss1)
          (fun s => az.vmssCreateOrUpdate s scaleSet vmss1) with
      | (w2, .error err) =>
        (w2, .err (.wrapf "failed to CreateOrUpdate vmss %q: %v" [scaleSet] err))
      | (w2, .ok future) =>
        match w2.call (.waitForCompletion future) (fun s => az.waitForCompletion s future) with
        | (w3, some err) => (w3, .err (.wrapf "failed to update VMSS %q: %v" [scaleSet] err))
        | (w3, none) =>
          let instanceIDs : List GoString := ["*".toList]
          match w3.call (.vmssUpdateInstances scaleSet instanceIDs)
              (fun s => az.vmssUpdateInstances s scaleSet instanceIDs) with
          | (w4, .error err) =>
            (w4, .err (.wrapf "failed to update instances for vmss %q: %v" [scaleSet] err))
          | (w4, .ok instanceFuture) =>
            match w4.call (.waitForCompletion instanceFuture)
                (fun s => az.waitForCompletion s instanceFuture) with
            | (w5, some err) =>
              (w5, .err (.wrapf "failed to update instances for vmss %q: %v" [scaleSet] err))
            | (w5, none) => (w5, .ok ())

/-- The assignment `(*nic.IPConfigurations)[0].PublicIPAddress = ip` (armhelpers.go 140 and
215), followed by the evaluation of `getResourceName(*nic.ID)`: the name and the interface
handed to `nicClient.CreateOrUpdate`.  Both field accesses go through embedded
properties. -/
def setPublicIPOfFirstConfiguration (nic : Interface) (ip : Option PublicIPAddress) :
    Except Panic (GoString × Interface) := do
  let properties ← deref nic.InterfacePropertiesFormat
  let ipConfigurations ← deref properties.IPConfigurations
  let first ← index ipConfigurations 0
  let firstProperties ← deref first.InterfaceIPConfigurationPropertiesFormat
  let firstProperties1 : InterfaceIPConfigurationPropertiesFormat :=
    { firstProperties with PublicIPAddress := ip }
  let first1 : InterfaceIPConfiguration :=
    { first with InterfaceIPConfigurationPropertiesFormat := some firstProperties1 }
  let properties1 : InterfacePropertiesFormat :=
    { properties with IPConfigurations := some (first1 :: ipConfigurations.tail) }
  let nic1 : Interface := { nic with InterfacePropertiesFormat := some properties1 }
  let nicID ← deref nic1.ID
  let nicName ← getResourceName nicID
  pure (nicName, nic1)

/-- Go `(*IPUpdate).CreateOrUpdateVMPulicIP`. -/
def CreateOrUpdateVMPulicIP (az : Azure σ) (env : Env) (vmName providerID ipName : GoString)
    (w : World σ) : World σ × Ret Unit :=
  match extractScaleSetNameByProviderID providerID with
  | (scaleSet, none) => UpdateVMSSPublicIP az scaleSet w
  | (_, some _) =>
    match getNetworkInterface az vmName w with
    | (w1, .panic p) => (w1, .panic p)
    | (w1, .err err) => (w1, .err (.wrapf "cannot get network interface: %v" [] err))
    | (w1, .ok nic) =>
      match createPublicIP az env ipName w1 with
      | (w2, .panic p) => (w2, .panic p)
      | (w2, .err err) =>
        (w2, .err (.wrapf "Cannot create Public IP for Node %s: %v" [vmName] err))
      | (w2, .ok ip) =>
        -- (*nic.IPConfigurations)[0].PublicIPAddress = &ip
        -- nicClient.CreateOrUpdate(ctx, rg, getResourceName(*nic.ID), *nic)
        match setPublicIPOfFirstConfiguration nic (some ip) with
        | .error p => (w2, .panic p)
        | .ok (nicName, nic1) =>
          match w2.call (.nicCreateOrUpdate nicName nic1)
              (fun s => az.nicCreateOrUpdate s nicName nic1) with
          | (w3, .error err) =>
            (w3, .err (.wrapf "cannot update NIC for Node %s: %v" [vmName] err))
          | (w3, .ok future) =>
            match w3.call (.waitForCompletion future)
                (fun s => az.waitForCompletion s future) with
            | (w4, some err) =>
              (w4, .err (.wrapf "cannot get NIC CreateOrUpdate response for Node %s: %v"
                [vmName] err))
            | (w4, none) => (w4, .ok ())

/-- Go `(*IPUpdate).DeletePublicIP`. -/
def DeletePublicIP (az : Azure σ) (ipName : GoString) (w : World σ) : World σ × Ret Unit :=
  match w.call (.ipDelete ipName) (fun s => az.ipDelete s ipName) with
  | (w1, .error err) =>
    (w1, .err (.wrapf "cannot delete Public IP address %s: %v" [ipName] err))
  | (w1, .ok future) =>
    match w1.call (.waitForCompletion future) (fun s => az.waitForCompletion s future) with
    | (w2, some err) =>
      (w2, .err (.wrapf "cannot get public ip address %s CreateOrUpdate method's response: %v"
        [ipName] err))
    | (w2, none) => (w2, .ok ())

/-- Go `(*IPUpdate).DisassociatePublicIPForNode`. -/
def DisassociatePublicIPForNode (az : Azure σ) (env : Env) (nodeName providerID : GoString)
    (w : World σ) : World σ × Ret Unit :=
  match extractScaleSetNameByProviderID providerID with
  | (_, none) => (w, .ok ())
  | (_, some _) =>
    let ipName := env.GetPublicIPName nodeName
    match w.read (.ipGet ipName) (fun s => az.ipGet s ipName) with
    | (w1, .error err) =>
      (w1, .err (.wrapf "cannot get IP Address: %v for Node %s" [nodeName] err))
    | (w1, .ok ipAddress) =>
      -- ipAddress.IPConfiguration != nil, read through the embedded properties
      match ipAddress.PublicIPAddressPropertiesFormat with
      | none => (w1, .panic .nilDereference)
      | some properties =>
      match properties.IPConfiguration with
      | none => (w1, .ok ())
      | some backReference =>
        -- ipConfiguration := *ipAddress.IPConfiguration.ID
        match (do let ipConfiguration ← deref backReference.ID
                  getNICNameFromIPConfiguration ipConfiguration : Except Panic GoString) with
        | .error p => (w1, .panic p)
        | .ok nicName =>
          match w1.read (.nicGet nicName) (fun s => az.nicGet s nicName) with
          | (w2, .error err) =>
            (w2, .err (.wrapf "cannot get NIC for Node %s, error: %v" [nodeName] err))
          | (w2, .ok nic) =>
            -- (*nic.IPConfigurations)[0].PublicIPAddress = nil
            -- nicClient.CreateOrUpdate(ctx, rg, getResourceName(*nic.ID), nic)
            match setPublicIPOfFirstConfiguration nic none with
            | .error p => (w2, .panic p)
            | .ok (name, nic1) =>
              match w2.call (.nicCreateOrUpdate name nic1)
                  (fun s => az.nicCreateOrUpdate s name nic1) with
              | (w3, .error err) =>
                (w3, .err (.wrapf "cannot update NIC for Node %s, error: %v" [nodeName] err))
              | (w3, .ok future) =>
                match w3.call (.waitForCompletion future)
                    (fun s => az.waitForCompletion s future) with
                | (w4, some err) =>
                  (w4, .err (.wrapf
                    "cannot get NIC CreateOrUpdate response for Node %s, error: %v"
                    [nodeName] err))
                | (w4, none) =>
                  match w4.call (.nicDelete name) (fun s => az.nicDelete s name) with
                  | (w5, .error err) =>
                    (w5, .err (.wrapf
                      "cannot delete NIC for Node %s, error: %v. NIC may have already been deleted"
                      [nodeName] err))
                  | (w5, .ok futureDelete) =>
                    match w5.call (.waitForCompletion futureDelete)
                        (fun s => az.waitForCompletion s futureDelete) with
                    | (w6, some err) =>
                      (w6, .err (.wrapf
                        "cannot get NIC Delete response for Node %s:, error: %v. NIC may have already been deleted"
                        [nodeName] err))
                    | (w6, none) => (w6, .ok ())

end Functions

/-! ## A simulated control plane

A small in-memory control plane on which the functions can be run on concrete inputs. -/

/-- Remote state of the simulation: the resources by name, the public IPs created so far
(a future of a create operation carries the position of its result in `created`), the
interfaces that the platform itself removes while the next operation completes (a
scale-in running next to the caller), and whether the platform rejects interface
updates. -/
structure Cloud where
  vms : List (GoString × VirtualMachine)
  nics : List (GoString × Interface)
  ips : List (GoString × PublicIPAddress)
  scaleSets : List (GoString × VirtualMachineScaleSet)
  created : List PublicIPAddress
  scaleIn : List GoString
  rejectNicUpdate : Bool

/-- The error of the simulated control plane for a resource that does not exist. -/
def notFound : GoError := .remote 404 "ResourceNotFound".toList

/-- The error of the simulated control plane for a rejected update. -/
def conflict : GoError := .remote 409 "Conflict".toList

/-- Look a resource up by name. -/
def findResource {α : Type} (name : GoString) (rs : List (GoString × α)) : Except GoError α :=
  match rs.lookup name with
  | some r => .ok r
  | none => .error notFound

/-- Remove a resource by name. -/
def removeResource {α : Type} (name : GoString) (rs : List (GoString × α)) :
    List (GoString × α) :=
  rs.filter (fun r => r.1 != name)

/-- The simulated control plane.  `Delete` of a resource that does not exist reports
not-found; completion of an operation also completes a pending scale-in. -/
def simAzure : Azure Cloud where
  vmGet s name := findResource name s.vms
  nicGet s name := findResource name s.nics
  nicCreateOrUpdate s name nic :=
    if s.rejectNicUpdate then (s, .error conflict)
    else ({ s with nics := (name, nic) :: removeResource name s.nics }, .ok ⟨0⟩)
  nicDelete s name :=
    if (s.nics.lookup name).isSome then
      ({ s with nics := removeResource name s.nics }, .ok ⟨0⟩)
    else (s, .error notFound)
  ipGet s name := findResource name s.ips
  ipCreateOrUpdate s name ip :=
    ({ s with ips := (name, ip) :: removeResource name s.ips, created := s.created ++ [ip] },
      .ok ⟨s.created.length⟩)
  ipDelete s name :=
    if (s.ips.lookup name).isSome then
      ({ s with ips := removeResource name s.ips }, .ok ⟨0⟩)
    else (s, .error notFound)
  ipResult s future :=
    (s, match s.created.get? future.token with
      | some ip => .ok ip
      | none => .error notFound)
  vmssGet s name := findResource name s.scaleSets
  vmssCreateOrUpdate s name vmss :=
    ({ s with scaleSets := (name, vmss) :: removeResource name s.scaleSets }, .ok ⟨0⟩)
  vmssUpdateInstances s name _ :=
    if (s.scaleSets.lookup name).isSome then (s, .ok ⟨0⟩) else (s, .error notFound)
  waitForCompletion s _ :=
    ({ s with nics := s.nics.filter (fun r => !s.scaleIn.contains r.1), scaleIn := [] }, none)

/-- The environment of the simulation; `GetPublicIPName` is a stand-in for the function of
that name defined elsewhere in the package. -/
def simEnv : Env where
  Location := "westeurope".toList
  GetPublicIPName := fun nodeName => nodeName ++ "-ip".toList

/-- ID of the interface `worker-1-nic`. -/
def simNicID : GoString :=
  "/subscriptions/X/resourceGroups/Y/providers/Microsoft.Network/networkInterfaces/worker-1-nic".toList

/-- The back-reference of a public IP attached to `worker-1-nic`. -/
def simBackReference : IPConfiguration where
  ID := some (simNicID ++ "/ipConfigurations/ipconfig1".toList)
  other := ⟨[]⟩

/-- The public IP `worker-1-ip`, optionally pointing back at an IP configuration. -/
def simIP (backReference : Option IPConfiguration) : PublicIPAddress where
  PublicIPAddressPropertiesFormat := some
    { PublicIPAllocationMethod := .Dynamic
      PublicIPAddressVersion := .IPv4
      IPConfiguration := backReference
      other := ⟨[]⟩ }
  ID := some "/subscriptions/X/resourceGroups/Y/providers/Microsoft.Network/publicIPAddresses/worker-1-ip".toList
  Name := some "worker-1-ip".toList
  Location := some "westeurope".toList
  other := ⟨[]⟩

/-- The public IP `worker-1-ip` as a resource without a properties object. -/
def simIPWithoutProperties : PublicIPAddress where
  PublicIPAddressPropertiesFormat := none
  ID := some "/subscriptions/X/resourceGroups/Y/providers/Microsoft.Network/publicIPAddresses/worker-1-ip".toList
  Name := some "worker-1-ip".toList
  Location := some "westeurope".toList
  other := ⟨[]⟩

/-- The first IP configuration of `worker-1-nic`, holding `ip`. -/
def simNicConfiguration (ip : Option PublicIPAddress) : InterfaceIPConfiguration where
  InterfaceIPConfigurationPropertiesFormat := some { PublicIPAddress := ip, other := ⟨[]⟩ }
  ID := some (simNicID ++ "/ipConfigurations/ipconfig1".toList)
  other := ⟨[]⟩

/-- The interface `worker-1-nic` with one IP configuration holding `ip`. -/
def simNic (ip : Option PublicIPAddress) : Interface where
  InterfacePropertiesFormat := some
    { IPConfigurations := some [simNicConfiguration ip], other := ⟨[]⟩ }
  ID := some simNicID
  other := ⟨[]⟩

/-- The virtual machine `worker-1`, whose primary interface is `worker-1-nic`. -/
def simVM : VirtualMachine where
  VirtualMachineProperties := some
    { NetworkProfile := some { NetworkInterfaces := some [{ ID := some simNicID, other := ⟨[]⟩ }] }
      other := ⟨[]⟩ }
  other := ⟨[]⟩

/-- An IP configuration of a scale set with the given public-IP template. -/
def simScaleSetIPConfiguration
    (template : Option VirtualMachineScaleSetPublicIPAddressConfiguration) :
    VirtualMachineScaleSetIPConfiguration where
  VirtualMachineScaleSetIPConfigurationProperties := some
    { PublicIPAddressConfiguration := template, other := ⟨"subnet".toList⟩ }
  other := ⟨"ipconfig".toList⟩

/-- A scale set whose first interface configuration carries the given IP configurations. -/
def simScaleSet (ipConfigurations : Option (List VirtualMachineScaleSetIPConfiguration)) :
    VirtualMachineScaleSet where
  VirtualMachineScaleSetProperties := some
    { VirtualMachineProfile := some
        { NetworkProfile := some
            { NetworkInterfaceConfigurations := some
                [{ VirtualMachineScaleSetNetworkConfigurationProperties := some
                     { IPConfigurations := ipConfigurations, other := ⟨"primary".toList⟩ }
                   other := ⟨"nic-config".toList⟩ }]
              other := ⟨[]⟩ }
          other := ⟨"vm-profile".toList⟩ }
      other := ⟨"upgrade-policy".toList⟩ }
  other := ⟨"sku, location".toList⟩

/-- A cloud with the standalone node `worker-1`, its interface `nic` and the public IPs
`ips`. -/
def simCloud (nic : Interface) (ips : List (GoString × PublicIPAddress))
    (scaleIn : List GoString) (rejectNicUpdate : Bool) : Cloud where
  vms := [("worker-1".toList, simVM)]
  nics := [("worker-1-nic".toList, nic)]
  ips := ips
  scaleSets := []
  created := []
  scaleIn := scaleIn
  rejectNicUpdate := rejectNicUpdate

/-- A cloud with the standalone node `worker-1` and no public IP yet. -/
def simCloudFresh : Cloud := simCloud (simNic none) [] [] false

/-- A cloud in which `worker-1-ip` is attached to `worker-1-nic`; `scaleIn` lists the
interfaces a concurrent scale-in is about to remove. -/
def simCloudAttached (scaleIn : List GoString) : Cloud :=
  simCloud (simNic (some (simIP none))) [("worker-1-ip".toList, simIP (some simBackReference))]
    scaleIn false

/-- A cloud in which `worker-1-ip` exists and is attached to nothing. -/
def simCloudDetached : Cloud :=
  simCloud (simNic none) [("worker-1-ip".toList, simIP none)] [] false

/-- A cloud with the scale set `vmss-pool-0`. -/
def simCloudScaleSet (vmss : VirtualMachineScaleSet) : Cloud where
  vms := []
  nics := []
  ips := []
  scaleSets := [("vmss-pool-0".toList, vmss)]
  created := []
  scaleIn := []
  rejectNicUpdate := false

/-- ProviderID of the standalone node `worker-1`. -/
def simStandaloneID : GoString :=
  "azure:///subscriptions/X/resourceGroups/Y/providers/Microsoft.Compute/virtualMachines/worker-1".toList

/-- ProviderID of instance 3 of the scale set `vmss-pool-0`. -/
def simScaleSetID : GoString :=
  "azure:///subscriptions/X/resourceGroups/Y/providers/Microsoft.Compute/virtualMachineScaleSets/vmss-pool-0/virtualMachines/3".toList

/-! ## Facts about `strings.Split` -/

theorem stringsSplit_ne_nil (sep : Char) (s : List Char) : stringsSplit sep s ≠ [] := by
  induction s with
  | nil => simp [stringsSplit]
  | cons c cs ih =>
    unfold stringsSplit
    split
    · simp
    · split <;> simp

theorem stringsSplit_of_not_mem (sep : Char) (s : List Char) (h : sep ∉ s) :
    stringsSplit sep s = [s] := by
  induction s with
  | nil => simp [stringsSplit]
  | cons c cs ih =>
    simp only [List.mem_cons, not_or] at h
    have hc : c ≠ sep := fun e => h.1 e.symm
    simp [stringsSplit, hc, ih h.2]

theorem stringsSplit_append_sep (sep : Char) (a b : List Char) :
    stringsSplit sep (a ++ sep :: b) = stringsSplit sep a ++ stringsSplit sep b := by
  induction a with
  | nil => simp [stringsSplit]
  | cons c cs ih =>
    by_cases hc : c = sep
    · simp [stringsSplit, hc, ih]
    · simp only [List.cons_append, stringsSplit, hc, if_false]
      cases hs : stringsSplit sep cs with
      | nil => exact absurd hs (stringsSplit_ne_nil sep cs)
      | cons seg segs => simp [ih, hs]

theorem stringsSplit_intercalate (sep : Char) (segs : List GoString) (hne : segs ≠ [])
    (hfree : ∀ seg ∈ segs, sep ∉ seg) :
    stringsSplit sep (List.intercalate [sep] segs) = segs := by
  induction segs with
  | nil => exact absurd rfl hne
  | cons a rest ih =>
    cases rest with
    | nil =>
      simpa [List.intercalate, List.intersperse] using
        stringsSplit_of_not_mem sep a (hfree a (by simp))
    | cons b rest2 =>
      have hrec := ih (by simp) (fun seg hseg => hfree seg (List.mem_cons_of_mem _ hseg))
      have hsplit : List.intercalate [sep] (a :: b :: rest2)
          = a ++ sep :: List.intercalate [sep] (b :: rest2) := by
        simp [List.intercalate, List.intersperse]
      rw [hsplit, stringsSplit_append_sep, hrec,
        stringsSplit_of_not_mem sep a (hfree a (by simp))]
      rfl

theorem intercalate_stringsSplit (sep : Char) (s : List Char) :
    List.intercalate [sep] (stringsSplit sep s) = s := by
  induction s with
  | nil => simp [stringsSplit, List.intercalate, List.intersperse]
  | cons c cs ih =>
    by_cases hc : c = sep
    · simp only [stringsSplit, hc, if_true]
      cases hs : stringsSplit sep cs with
      | nil => exact absurd hs (stringsSplit_ne_nil sep cs)
      | cons seg segs =>
        rw [hs] at ih
        rw [← ih]
        simp [List.intercalate, List.intersperse]
    · simp only [stringsSplit, hc, if_false]
      cases hs : stringsSplit sep cs with
      | nil => exact absurd hs (stringsSplit_ne_nil sep cs)
      | cons seg segs =>
        rw [hs] at ih
        rw [← ih]
        cases segs <;> simp [List.intercalate, List.intersperse]

theorem stringsSplit_sep_free (sep : Char) (s : List Char) :
    ∀ seg ∈ stringsSplit sep s, sep ∉ seg := by
  induction s with
  | nil => simp [stringsSplit]
  | cons c cs ih =>
    by_cases hc : c = sep
    · simp only [stringsSplit, hc, if_true]
      intro seg hseg
      rcases List.mem_cons.1 hseg with h | h
      · simp [h]
      · exact ih seg h
    · simp only [stringsSplit, hc, if_false]
      cases hs : stringsSplit sep cs with
      | nil => exact absurd hs (stringsSplit_ne_nil sep cs)
      | cons seg segs =>
        rw [hs] at ih
        intro seg2 hseg2
        rcases List.mem_cons.1 hseg2 with h | h
        · subst h
          have := ih seg (by simp)
          simp only [List.mem_cons, not_or]
          exact ⟨fun e => hc e.symm, this⟩
        · exact ih seg2 (List.mem_cons_of_mem _ h)

theorem index_append_left {α : Type} (front back : List α) (x : α) (k : Nat)
    (hk : back.length + 1 = k) :
    index (front ++ x :: back) (((front ++ x :: back).length : Int) - k) = .ok x := by
  subst hk
  have h1 : (((front ++ x :: back).length : Int) - ((back.length + 1 : Nat) : Int))
      = (front.length : Int) := by
    simp only [List.length_append, List.length_cons]
    push_cast
    ring
  have h2 : ¬ ((front.length : Int) < 0) := by omega
  rw [h1]
  simp only [index, h2, if_false, Int.toNat_ofNat, List.get?_eq_getElem?]
  rw [List.getElem?_append_right (le_refl _)]
  simp

theorem getResourceName_total (fullID : GoString) :
    ∃ name, getResourceName fullID = .ok name ∧ '/' ∉ name ∧ name <:+ fullID := by
  have hne := stringsSplit_ne_nil '/' fullID
  have hfree := stringsSplit_sep_free '/' fullID
  have hjoin := intercalate_stringsSplit '/' fullID
  obtain ⟨front, last, hparts⟩ : ∃ front last, stringsSplit '/' fullID = front ++ [last] :=
    ⟨_, _, (List.dropLast_append_getLast hne).symm⟩
  refine ⟨last, ?_, ?_, ?_⟩
  · unfold getResourceName
    simp only [hparts]
    exact index_append_left front [] last 1 rfl
  · exact hfree last (by simp [hparts])
  · rw [← hjoin, hparts]
    cases front with
    | nil => simp [List.intercalate, List.intersperse]
    | cons a rest =>
      refine ⟨List.intercalate ['/'] (a :: rest) ++ ['/'], ?_⟩
      clear hparts hne hfree hjoin
      induction rest generalizing a with
      | nil => simp [List.intercalate, List.intersperse]
      | cons b rest2 ih =>
        have := ih b
        simp [List.intercalate, List.intersperse] at this ⊢
        exact this

/-- Claim C9. The two identifier helpers select path segments by position from the end.
Every string is the `/`-join of a non-empty list of slash-free segments, which
`strings.Split` recovers; `getResourceName` returns the last segment of every string
without indexing out of range, and its result is slash-free and a suffix of the input;
`getNICNameFromIPConfiguration` returns the third segment from the end whenever there
are at least three, in particular `nic` on
`<anything>/networkInterfaces/nic/ipConfigurations/cfg`. -/
theorem C9_identifier_helpers_select_segments :
    (∀ fullID : GoString, 1 ≤ (stringsSplit '/' fullID).length
        ∧ (∀ seg ∈ stringsSplit '/' fullID, '/' ∉ seg)
        ∧ List.intercalate ['/'] (stringsSplit '/' fullID) = fullID)
    ∧ (∀ (front : List GoString) (last : GoString),
        (∀ seg ∈ front ++ [last], '/' ∉ seg) →
        getResourceName (List.intercalate ['/'] (front ++ [last])) = .ok last)
    ∧ (∀ fullID : GoString,
        ∃ name, getResourceName fullID = .ok name ∧ '/' ∉ name ∧ name <:+ fullID)
    ∧ (∀ (front : List GoString) (a b c : GoString),
        (∀ seg ∈ front ++ [a, b, c], '/' ∉ seg) →
        getNICNameFromIPConfiguration (List.intercalate ['/'] (front ++ [a, b, c])) = .ok a)
    ∧ (∀ pre nic cfg : GoString, '/' ∉ nic → '/' ∉ cfg →
        getNICNameFromIPConfiguration
          (pre ++ "/networkInterfaces/".toList ++ nic ++ "/ipConfigurations/".toList ++ cfg)
          = .ok nic) := by
  refine ⟨?_, ?_, getResourceName_total, ?_, ?_⟩
  · intro fullID
    refine ⟨?_, stringsSplit_sep_free _ _, intercalate_stringsSplit _ _⟩
    have := stringsSplit_ne_nil '/' fullID
    exact Nat.succ_le_of_lt (List.length_pos.2 this)
  · intro front last hfree
    unfold getResourceName
    simp only [stringsSplit_intercalate '/' (front ++ [last]) (by simp) hfree]
    exact index_append_left front [] last 1 rfl
  · intro front a b c hfree
    unfold getNICNameFromIPConfiguration
    simp only [stringsSplit_intercalate '/' (front ++ [a, b, c]) (by simp) hfree]
    exact index_append_left front [b, c] a 3 rfl
  · intro pre nic cfg hnic hcfg
    unfold getNICNameFromIPConfiguration
    have hshape : pre ++ "/networkInterfaces/".toList ++ nic ++ "/ipConfigurations/".toList ++ cfg
        = (pre ++ "/networkInterfaces".toList) ++ '/' ::
            (nic ++ '/' :: ("ipConfigurations".toList ++ '/' :: cfg)) := by
      simp [String.toList]
    have hmid : stringsSplit '/' "ipConfigurations".toList = ["ipConfigurations".toList] := by
      decide
    simp only [hshape, stringsSplit_append_sep, stringsSplit_of_not_mem '/' nic hnic,
      stringsSplit_of_not_mem '/' cfg hcfg, hmid]
    exact index_append_left (stringsSplit '/' (pre ++ "/networkInterfaces".toList))
      ["ipConfigurations".toList, cfg] nic 3 rfl

/-- Witness for C9 on the NIC id of the source comment. -/
theorem C9_identifier_helpers_select_segments_witness :
    getNICNameFromIPConfiguration
        ("/subscriptions/X/resourceGroups/Y/providers/Microsoft.Network".toList
          ++ "/networkInterfaces/".toList ++ "aks-nodepool1-26427378-nic-0".toList
          ++ "/ipConfigurations/".toList ++ "ipconfig1".toList)
      = .ok "aks-nodepool1-26427378-nic-0".toList :=
  C9_identifier_helpers_select_segments.2.2.2.2 _ _ _ (by decide) (by decide)

/-! ## Facts about the pattern matcher -/

theorem star_complete (k : List Char → Option MatchResult) (u v : List Char)
    (hu : '\n' ∉ u) (hk : (k v).isSome) : (star k (u ++ v)).isSome := by
  induction u with
  | nil =>
    cases v with
    | nil => simpa [star] using hk
    | cons c cs =>
      simp only [List.nil_append, star]
      split
      · exact hk
      · split
        · simp
        · exact hk
  | cons c cs ih =>
    simp only [List.mem_cons, not_or] at hu
    have hc : c ≠ '\n' := fun e => hu.1 e.symm
    have hrec := ih hu.2
    simp only [List.cons_append, star, hc, if_false]
    split
    · simp
    · rename_i hnone
      simp only [List.append_eq] at hnone
      rw [hnone] at hrec
      simp at hrec

theorem star_max (k : List Char → Option MatchResult) (s : List Char) (r : MatchResult)
    (h : star k s = some r) :
    ∃ u v, s = u ++ v ∧ '\n' ∉ u ∧ k v = some r ∧
      ∀ u2 v2, s = u2 ++ v2 → '\n' ∉ u2 → u.length < u2.length → k v2 = none := by
  induction s with
  | nil =>
    refine ⟨[], [], rfl, by simp, by simpa [star] using h, ?_⟩
    intro u2 v2 h2 _ hlen
    have : u2 = [] := by
      cases u2 with
      | nil => rfl
      | cons a b => simp at h2
    simp [this] at hlen
  | cons c cs ih =>
    by_cases hc : c = '\n'
    · simp only [star, hc, if_true] at h
      refine ⟨[], c :: cs, rfl, by simp, by simpa [hc] using h, ?_⟩
      intro u2 v2 h2 hnl hlen
      cases u2 with
      | nil => simp at hlen
      | cons a b =>
        simp only [List.cons_append, List.cons.injEq] at h2
        exact absurd (by simp [← h2.1, hc]) hnl
    · simp only [star, hc, if_false] at h
      cases hs : star k cs with
      | some r2 =>
        rw [hs] at h
        simp only [Option.some.injEq] at h
        subst h
        obtain ⟨u, v, huv, hnl, hkv, hmax⟩ := ih hs
        refine ⟨c :: u, v, by simp [huv], ?_, hkv, ?_⟩
        · simp only [List.mem_cons, not_or]
          exact ⟨fun e => hc e.symm, hnl⟩
        · intro u2 v2 h2 hnl2 hlen
          cases u2 with
          | nil => simp at hlen
          | cons a b =>
            simp only [List.cons_append, List.cons.injEq] at h2
            simp only [List.mem_cons, not_or] at hnl2
            exact hmax b v2 h2.2 hnl2.2 (by simpa using hlen)
      | none =>
        rw [hs] at h
        refine ⟨[], c :: cs, rfl, by simp, h, ?_⟩
        intro u2 v2 h2 hnl2 hlen
        cases u2 with
        | nil => simp at hlen
        | cons a b =>
          simp only [List.cons_append, List.cons.injEq] at h2
          simp only [List.mem_cons, not_or] at hnl2
          by_contra hne
          have hsome : (k v2).isSome := by
            cases hk : k v2 with
            | none => exact absurd hk hne
            | some _ => simp
          have := star_complete k b v2 hnl2.2 hsome
          rw [← h2.2, hs] at this
          simp at this

theorem matchFrom_chars (L : List Char) (r : List Inst) (cs cap s : List Char)
    (res : MatchResult) :
    matchFrom (L.map Inst.char ++ r) cs cap s = some res ↔
      ∃ t, s = L ++ t ∧ matchFrom r cs cap t = some res := by
  induction L generalizing s with
  | nil => simp
  | cons a L2 ih =>
    cases s with
    | nil => simp [matchFrom]
    | cons x s2 =>
      simp only [List.map_cons, List.cons_append, matchFrom]
      by_cases hx : x = a
      · subst hx
        simp only [if_true, List.append_eq, ih, List.cons.injEq, true_and]
      · simp only [hx, if_false, List.cons.injEq, false_and, exists_false]
        simp

theorem star_sound (k : List Char → Option MatchResult) (s : List Char) (r : MatchResult)
    (h : star k s = some r) : ∃ u v, s = u ++ v ∧ '\n' ∉ u ∧ k v = some r := by
  obtain ⟨u, v, h1, h2, h3, _⟩ := star_max k s r h
  exact ⟨u, v, h1, h2, h3⟩

/-- After the group is closed: the literal `V` and the trailing `.*` always succeed on an
input that starts with `V`, and the group text is what `capClose` computed. -/
theorem afterGroup_some (V cs cap x : List Char) (res : MatchResult) :
    matchFrom (Inst.capClose :: (V.map Inst.char ++ [Inst.starAnyNotNL])) cs cap x = some res →
      (∃ t, x = V ++ t) ∧ res.cap = cs.take (cs.length - x.length) := by
  intro h
  simp only [matchFrom] at h
  rw [matchFrom_chars] at h
  obtain ⟨t, hx, ht⟩ := h
  refine ⟨⟨t, hx⟩, ?_⟩
  simp only [matchFrom] at ht
  obtain ⟨u, v, _, _, hv⟩ := star_sound _ _ _ ht
  simp only [matchFrom, Option.some.injEq] at hv
  rw [← hv]

theorem afterGroup_complete (V cs cap t : List Char) :
    (matchFrom (Inst.capClose :: (V.map Inst.char ++ [Inst.starAnyNotNL])) cs cap
      (V ++ t)).isSome := by
  have h1 : (star (matchFrom [] cs (cs.take (cs.length - (V ++ t).length))) t).isSome := by
    have := star_complete (matchFrom [] cs (cs.take (cs.length - (V ++ t).length))) [] t
      (by simp) (by simp [matchFrom])
    simpa using this
  obtain ⟨res, hres⟩ := Option.isSome_iff_exists.1 h1
  have h2 : matchFrom (V.map Inst.char ++ [Inst.starAnyNotNL]) cs
      (cs.take (cs.length - (V ++ t).length)) (V ++ t) = some res := by
    rw [matchFrom_chars]
    exact ⟨t, rfl, by simpa [matchFrom] using hres⟩
  simp only [matchFrom]
  rw [h2]
  rfl

/-- The capturing group `(.+)` followed by the literal `V` and `.*`: the group takes the
longest non-empty newline-free text that is followed by `V`. -/
theorem group_spec (V cs cap w : List Char) (res : MatchResult)
    (h : matchFrom ([Inst.capOpen, Inst.anyNotNL, Inst.starAnyNotNL, Inst.capClose]
      ++ (V.map Inst.char ++ [Inst.starAnyNotNL])) cs cap w = some res) :
    ∃ capt t, w = capt ++ (V ++ t) ∧ capt ≠ [] ∧ '\n' ∉ capt ∧ res.cap = capt ∧
      ∀ capt2 t2, w = capt2 ++ (V ++ t2) → '\n' ∉ capt2 → capt2.length ≤ capt.length := by
  cases w with
  | nil => simp [matchFrom] at h
  | cons c w2 =>
    simp only [List.cons_append, List.nil_append, matchFrom] at h
    by_cases hc : c = '\n'
    · simp [hc] at h
    · simp only [hc, if_false] at h
      change star (matchFrom (Inst.capClose :: (V.map Inst.char ++ [Inst.starAnyNotNL]))
        (c :: w2) cap) w2 = some res at h
      obtain ⟨u, v, huv, hnl, hkv, hmax⟩ := star_max _ _ _ h
      obtain ⟨⟨t, hv⟩, hcap⟩ := afterGroup_some V (c :: w2) cap v res hkv
      refine ⟨c :: u, t, by simp [huv, hv], by simp, ?_, ?_, ?_⟩
      · simp only [List.mem_cons, not_or]
        exact ⟨fun e => hc e.symm, hnl⟩
      · rw [hcap, huv]
        have : (c :: (u ++ v)).length - v.length = (c :: u).length := by
          simp only [List.length_cons, List.length_append]
          omega
        rw [this]
        have happ : c :: (u ++ v) = (c :: u) ++ v := rfl
        rw [happ, List.take_left]
      · intro capt2 t2 h2 hnl2
        cases capt2 with
        | nil => simp
        | cons a b =>
          simp only [List.cons_append, List.cons.injEq] at h2
          simp only [List.mem_cons, not_or] at hnl2
          by_contra hlt
          have hlt2 : u.length < b.length := by
            simp only [List.length_cons] at hlt
            omega
          have hnone := hmax b (V ++ t2) h2.2 hnl2.2 hlt2
          have hsome := afterGroup_complete V (c :: w2) cap t2
          rw [hnone] at hsome
          simp at hsome

theorem group_complete (V cs cap capt t : List Char) (hne : capt ≠ []) (hnl : '\n' ∉ capt) :
    (matchFrom ([Inst.capOpen, Inst.anyNotNL, Inst.starAnyNotNL, Inst.capClose]
      ++ (V.map Inst.char ++ [Inst.starAnyNotNL])) cs cap (capt ++ (V ++ t))).isSome := by
  cases capt with
  | nil => exact absurd rfl hne
  | cons c u =>
    simp only [List.mem_cons, not_or] at hnl
    have hc : c ≠ '\n' := fun e => hnl.1 e.symm
    simp only [List.cons_append, List.nil_append, matchFrom, hc, if_false]
    change (star (matchFrom (Inst.capClose :: (V.map Inst.char ++ [Inst.starAnyNotNL]))
      (c :: (u ++ (V ++ t))) cap) (u ++ (V ++ t))).isSome
    exact star_complete _ u (V ++ t) hnl.2 (afterGroup_complete V _ cap t)

theorem literal_wildcard_iff (M1 M2 : List Char) (R : List Inst) (cs cap v : List Char)
    (res : MatchResult) :
    matchFrom (M1.map Inst.char ++ (Inst.anyNotNL :: (M2.map Inst.char ++ R))) cs cap v
        = some res ↔
      ∃ d w, v = M1 ++ d :: (M2 ++ w) ∧ d ≠ '\n' ∧ matchFrom R cs cap w = some res := by
  rw [matchFrom_chars]
  constructor
  · rintro ⟨t, hv, ht⟩
    cases t with
    | nil => simp [matchFrom] at ht
    | cons d t2 =>
      simp only [matchFrom] at ht
      by_cases hd : d = '\n'
      · simp [hd] at ht
      · simp only [hd, if_false] at ht
        change matchFrom (M2.map Inst.char ++ R) cs cap t2 = some res at ht
        rw [matchFrom_chars] at ht
        obtain ⟨w, ht2, hw⟩ := ht
        exact ⟨d, w, by rw [hv, ht2], hd, hw⟩
  · rintro ⟨d, w, hv, hd, hw⟩
    refine ⟨d :: (M2 ++ w), hv, ?_⟩
    simp only [matchFrom, hd, if_false]
    change matchFrom (M2.map Inst.char ++ R) cs cap (M2 ++ w) = some res
    rw [matchFrom_chars]
    exact ⟨w, rfl, hw⟩

/-- A suffix that starts with a slash cannot start inside a slash-free block. -/
theorem suffix_past_slash_free (l s x y : List Char) (hl : '/' ∉ l)
    (hx : '/' :: y <:+ l ++ s) (hxy : x = '/' :: y) : x <:+ s := by
  subst hxy
  induction l with
  | nil => simpa using hx
  | cons a l2 ih =>
    simp only [List.mem_cons, not_or] at hl
    rw [List.cons_append, List.suffix_cons_iff] at hx
    rcases hx with h | h
    · simp only [List.cons.injEq] at h
      exact absurd h.1 hl.1
    · exact ih hl.2 h

/-- In `pid = H ++ V ++ suf` with no `V` inside `suf`, every suffix of `pid` that starts
with `V` contains the designated occurrence. -/
theorem last_occurrence (V Vt H suf x : List Char) (hV : V = '/' :: Vt) (hVt : '/' ∉ Vt)
    (hfree : ∀ z, z <:+ suf → ¬ V <+: z)
    (hx : x <:+ H ++ (V ++ suf)) (hpre : V <+: x) : V ++ suf <:+ x := by
  have hsV : V ++ suf <:+ H ++ (V ++ suf) := List.suffix_append _ _
  rcases List.suffix_or_suffix_of_suffix hx hsV with h | h
  · rw [hV, List.cons_append, List.suffix_cons_iff] at h
    rcases h with h | h
    · rw [h, hV]
      exact List.suffix_rfl
    · obtain ⟨rest, hrest⟩ := hpre
      have hstart : x = '/' :: (Vt ++ rest) := by rw [← hrest, hV]; rfl
      have hsuf : x <:+ suf :=
        suffix_past_slash_free Vt suf x (Vt ++ rest) hVt (hstart ▸ h) hstart
      exact absurd ⟨rest, hrest⟩ (hfree x hsuf)
  · exact h

theorem mem_of_append_suffix (c : Char) (H z s : List Char) (hz : z ++ s <:+ H ++ s)
    (hc : c ∉ H) : c ∉ z := by
  obtain ⟨p, hp⟩ := hz
  have : p ++ z = H := List.append_cancel_right (by simpa using hp)
  intro hmem
  exact hc (this ▸ List.mem_append_right p hmem)

/-- The middle `.*` followed by `M1 . M2 (.+) V .*`, run on any suffix `t` of
`H0 ++ M1 ++ d0 :: M2 ++ name ++ V ++ suf`: when `name` is slash-free, `V` does not occur in
`suf`, `V` starts and `M2` ends with a slash and there is no newline before `V`, the group
is exactly `name`. -/
theorem middle_star_exact (M1 M2 M2i V Vt cs cap H0 name suf t : List Char) (d0 : Char)
    (res : MatchResult)
    (hV : V = '/' :: Vt) (hVt : '/' ∉ Vt) (hM2 : M2 = M2i ++ ['/'])
    (hnl : '\n' ∉ H0 ++ (M1 ++ d0 :: (M2 ++ name)))
    (hname : name ≠ []) (hslash : '/' ∉ name)
    (hfree : ∀ z, z <:+ suf → ¬ V <+: z)
    (ht : t <:+ H0 ++ (M1 ++ d0 :: (M2 ++ (name ++ (V ++ suf)))))
    (h : star (matchFrom (M1.map Inst.char ++ (Inst.anyNotNL :: (M2.map Inst.char ++
      ([Inst.capOpen, Inst.anyNotNL, Inst.starAnyNotNL, Inst.capClose]
        ++ (V.map Inst.char ++ [Inst.starAnyNotNL]))))) cs cap) t = some res) :
    res.cap = name := by
  -- the designated suffixes of the input
  have hpid : H0 ++ (M1 ++ d0 :: (M2 ++ (name ++ (V ++ suf))))
      = (H0 ++ (M1 ++ d0 :: (M2 ++ name))) ++ (V ++ suf) := by simp
  have hsN : name ++ (V ++ suf) <:+ H0 ++ (M1 ++ d0 :: (M2 ++ (name ++ (V ++ suf)))) :=
    ⟨H0 ++ (M1 ++ d0 :: M2), by simp⟩
  have hsM : M1 ++ d0 :: (M2 ++ (name ++ (V ++ suf)))
      <:+ H0 ++ (M1 ++ d0 :: (M2 ++ (name ++ (V ++ suf)))) := List.suffix_append _ _
  have hd0 : d0 ≠ '\n' := by
    intro e
    apply hnl
    simp [e]
  have hnlname : '\n' ∉ name := by
    intro e
    apply hnl
    simp [e]
  have hnlH0 : '\n' ∉ H0 := by
    intro e
    apply hnl
    simp [e]
  -- the choice made by the middle star, the literal and the group
  obtain ⟨u2, v2, htv, hnlu2, hk, hmax⟩ := star_max _ _ _ h
  obtain ⟨d, w, hv2, hd, hw⟩ := (literal_wildcard_iff M1 M2 _ cs cap v2 res).1 hk
  obtain ⟨capt, t3, hwc, hcne, hcnl, hcap, hcmax⟩ := group_spec V cs cap w res hw
  have hv2suf : v2 <:+ H0 ++ (M1 ++ d0 :: (M2 ++ (name ++ (V ++ suf)))) :=
    List.IsSuffix.trans ⟨u2, htv.symm⟩ ht
  have hwsuf : w <:+ v2 := ⟨M1 ++ d :: M2, by simp [hv2]⟩
  have hxsuf : V ++ t3 <:+ H0 ++ (M1 ++ d0 :: (M2 ++ (name ++ (V ++ suf)))) :=
    List.IsSuffix.trans (List.IsSuffix.trans ⟨capt, hwc.symm⟩ hwsuf) hv2suf
  -- the group ends at the last occurrence of V
  have hlast : V ++ suf <:+ V ++ t3 := by
    rw [hpid] at hxsuf
    exact last_occurrence V Vt _ suf (V ++ t3) hV hVt hfree hxsuf ⟨t3, rfl⟩
  obtain ⟨y, hy⟩ := hlast
  have hynl : '\n' ∉ y := by
    rw [hpid, ← hy] at hxsuf
    exact mem_of_append_suffix _ _ y _ hxsuf hnl
  have hy0 : y = [] := by
    have := hcmax (capt ++ y) suf (by rw [hwc, ← hy]; simp) (by
      simp only [List.mem_append, not_or]
      exact ⟨hcnl, hynl⟩)
    simp only [List.length_append] at this
    exact List.length_eq_zero.1 (by omega)
  subst hy0
  simp only [List.nil_append] at hy
  rw [← hy] at hwc
  subst hwc
  rw [hcap]
  -- compare with the designated occurrence of the literal
  rcases Nat.lt_trichotomy capt.length name.length with hlt | heq | hgt
  · exfalso
    have hz : '/' :: (capt ++ (V ++ suf)) <:+ v2 :=
      ⟨M1 ++ d :: M2i, by rw [hv2, hM2]; simp⟩
    have hz2 : '/' :: (capt ++ (V ++ suf)) <:+ name ++ (V ++ suf) :=
      List.suffix_of_suffix_length_le (List.IsSuffix.trans hz hv2suf) hsN (by
        simp only [List.length_cons, List.length_append]
        omega)
    have hz3 := suffix_past_slash_free name (V ++ suf) _ (capt ++ (V ++ suf)) hslash hz2 rfl
    have := hz3.length_le
    simp only [List.length_cons, List.length_append] at this
    omega
  · have hlen : v2.length = (M1 ++ d0 :: (M2 ++ (name ++ (V ++ suf)))).length := by
      rw [hv2]
      simp only [List.length_cons, List.length_append]
      omega
    have hsame : v2 = M1 ++ d0 :: (M2 ++ (name ++ (V ++ suf))) := by
      rcases List.suffix_or_suffix_of_suffix hv2suf hsM with h1 | h1
      · exact h1.eq_of_length hlen
      · exact (h1.eq_of_length hlen.symm).symm
    rw [hv2] at hsame
    have h1 := List.append_cancel_left hsame
    simp only [List.cons.injEq] at h1
    have h2 := List.append_cancel_left h1.2
    exact List.append_cancel_right h2
  · exfalso
    have hle : (M1 ++ d0 :: (M2 ++ (name ++ (V ++ suf)))).length ≤ v2.length := by
      rw [hv2]
      simp only [List.length_cons, List.length_append]
      omega
    obtain ⟨z, hz⟩ := List.suffix_of_suffix_length_le hsM hv2suf hle
    have hzlen : 0 < z.length := by
      have := congrArg List.length hz
      rw [hv2] at this
      simp only [List.length_cons, List.length_append] at this
      omega
    have hznl : '\n' ∉ z := by
      rw [← hz] at hv2suf
      exact mem_of_append_suffix _ H0 z _ hv2suf hnlH0
    have hnone := hmax (u2 ++ z) (M1 ++ d0 :: (M2 ++ (name ++ (V ++ suf))))
      (by rw [htv, ← hz]; simp) (by
        simp only [List.mem_append, not_or]
        exact ⟨hnlu2, hznl⟩) (by
        simp only [List.length_append]
        omega)
    have hsome := group_complete V cs cap name suf hname hnlname
    obtain ⟨r2, hr2⟩ := Option.isSome_iff_exists.1 hsome
    have := (literal_wildcard_iff M1 M2 _ cs cap _ r2).2 ⟨d0, _, rfl, hd0, hr2⟩
    rw [hnone] at this
    simp at this

/-- The pattern of the package, written with its literals as character lists. -/
theorem scaleSetNameRE_eq :
    scaleSetNameRE = Inst.starAnyNotNL :: ("/subscriptions/".toList.map Inst.char ++
      (Inst.starAnyNotNL :: ("/Microsoft".toList.map Inst.char ++ (Inst.anyNotNL ::
        ("Compute/virtualMachineScaleSets/".toList.map Inst.char ++
          ([Inst.capOpen, Inst.anyNotNL, Inst.starAnyNotNL, Inst.capClose]
            ++ ("/virtualMachines".toList.map Inst.char ++ [Inst.starAnyNotNL]))))))) := by
  simp [scaleSetNameRE, lits]

/-- Every match of a pattern `.* A .* M1 . M2 (.+) V .*` decomposes the input. -/
theorem pattern_sound (A M1 M2 V cs cap s : List Char) (res : MatchResult)
    (h : matchFrom (Inst.starAnyNotNL :: (A.map Inst.char ++ (Inst.starAnyNotNL ::
      (M1.map Inst.char ++ (Inst.anyNotNL :: (M2.map Inst.char ++
        ([Inst.capOpen, Inst.anyNotNL, Inst.starAnyNotNL, Inst.capClose]
          ++ (V.map Inst.char ++ [Inst.starAnyNotNL])))))))) cs cap s = some res) :
    ∃ u mid d capt rest, s = u ++ (A ++ (mid ++ (M1 ++ d :: (M2 ++ (capt ++ (V ++ rest))))))
      ∧ '\n' ∉ u ∧ '\n' ∉ mid ∧ d ≠ '\n' ∧ capt ≠ [] ∧ '\n' ∉ capt ∧ res.cap = capt := by
  simp only [matchFrom] at h
  obtain ⟨u, v, hs, hu, hv⟩ := star_sound _ _ _ h
  rw [matchFrom_chars] at hv
  obtain ⟨t, hvt, ht⟩ := hv
  simp only [matchFrom] at ht
  obtain ⟨mid, v2, ht2, hmid, hv2⟩ := star_sound _ _ _ ht
  obtain ⟨d, w, hv2w, hd, hw⟩ := (literal_wildcard_iff M1 M2 _ cs cap v2 res).1 hv2
  obtain ⟨capt, rest, hwc, hcne, hcnl, hcap, _⟩ := group_spec V cs cap w res hw
  exact ⟨u, mid, d, capt, rest, by rw [hs, hvt, ht2, hv2w, hwc], hu, hmid, hd, hcne, hcnl, hcap⟩

/-- Every input that decomposes is matched. -/
theorem pattern_complete (A M1 M2 V cs cap u mid capt rest : List Char) (d : Char)
    (hu : '\n' ∉ u) (hmid : '\n' ∉ mid) (hd : d ≠ '\n') (hcne : capt ≠ [])
    (hcnl : '\n' ∉ capt) :
    (matchFrom (Inst.starAnyNotNL :: (A.map Inst.char ++ (Inst.starAnyNotNL ::
      (M1.map Inst.char ++ (Inst.anyNotNL :: (M2.map Inst.char ++
        ([Inst.capOpen, Inst.anyNotNL, Inst.starAnyNotNL, Inst.capClose]
          ++ (V.map Inst.char ++ [Inst.starAnyNotNL])))))))) cs cap
      (u ++ (A ++ (mid ++ (M1 ++ d :: (M2 ++ (capt ++ (V ++ rest)))))))).isSome := by
  obtain ⟨r1, hr1⟩ := Option.isSome_iff_exists.1 (group_complete V cs cap capt rest hcne hcnl)
  have h2 := (literal_wildcard_iff M1 M2 _ cs cap _ r1).2 ⟨d, _, rfl, hd, hr1⟩
  have h3 := star_complete _ mid _ hmid (Option.isSome_iff_exists.2 ⟨r1, h2⟩)
  obtain ⟨r3, hr3⟩ := Option.isSome_iff_exists.1 h3
  have h4 : matchFrom (A.map Inst.char ++ (Inst.starAnyNotNL ::
      (M1.map Inst.char ++ (Inst.anyNotNL :: (M2.map Inst.char ++
        ([Inst.capOpen, Inst.anyNotNL, Inst.starAnyNotNL, Inst.capClose]
          ++ (V.map Inst.char ++ [Inst.starAnyNotNL]))))))) cs cap
      (A ++ (mid ++ (M1 ++ d :: (M2 ++ (capt ++ (V ++ rest)))))) = some r3 := by
    rw [matchFrom_chars]
    exact ⟨_, rfl, by simpa only [matchFrom] using hr3⟩
  simp only [matchFrom]
  exact star_complete _ u _ hu (Option.isSome_iff_exists.2 ⟨r3, h4⟩)

theorem FindStringSubmatch_of_match (re : List Inst) (s : List Char) (res : MatchResult)
    (h : matchFrom re [] [] s = some res) :
    ∃ whole, FindStringSubmatch re s = [whole, res.cap] := by
  cases s with
  | nil => exact ⟨[], by simp [FindStringSubmatch, h]⟩
  | cons c cs =>
    exact ⟨(c :: cs).take ((c :: cs).length - res.rest.length),
      by simp only [FindStringSubmatch, h]⟩

theorem FindStringSubmatch_cases (re : List Inst) (s : List Char) :
    (FindStringSubmatch re s = [] ∧ ∀ s0, s0 <:+ s → matchFrom re [] [] s0 = none) ∨
    (∃ s0 res whole, s0 <:+ s ∧ matchFrom re [] [] s0 = some res ∧
      FindStringSubmatch re s = [whole, res.cap]) := by
  induction s with
  | nil =>
    cases h : matchFrom re [] [] [] with
    | none =>
      left
      refine ⟨by simp [FindStringSubmatch, h], ?_⟩
      intro s0 hs0
      rw [List.suffix_nil.1 hs0]
      exact h
    | some res =>
      right
      exact ⟨[], res, [], List.suffix_rfl, h, by simp [FindStringSubmatch, h]⟩
  | cons c cs ih =>
    cases h : matchFrom re [] [] (c :: cs) with
    | none =>
      rcases ih with ⟨hnil, hall⟩ | ⟨s0, res, whole, hs0, hm, hf⟩
      · left
        refine ⟨by simp only [FindStringSubmatch, h, hnil], ?_⟩
        intro s0 hs0
        rcases List.suffix_cons_iff.1 hs0 with h1 | h1
        · rw [h1]; exact h
        · exact hall s0 h1
      · right
        exact ⟨s0, res, whole, List.IsSuffix.trans hs0 (List.suffix_cons _ _), hm,
          by simp only [FindStringSubmatch, h, hf]⟩
    | some res =>
      right
      exact ⟨c :: cs, res, (c :: cs).take ((c :: cs).length - res.rest.length),
        List.suffix_rfl, h, by simp only [FindStringSubmatch, h]⟩

theorem extract_of_found (providerID whole name : GoString)
    (h : FindStringSubmatch scaleSetNameRE providerID = [whole, name]) :
    extractScaleSetNameByProviderID providerID = (name, none) := by
  simp [extractScaleSetNameByProviderID, h]

theorem extract_of_not_found (providerID : GoString)
    (h : FindStringSubmatch scaleSetNameRE providerID = []) :
    extractScaleSetNameByProviderID providerID = ([], some errNotVmss) := by
  simp [extractScaleSetNameByProviderID, h]

/-- On `pre ++ A ++ mid ++ M1 ++ d0 :: M2 ++ name ++ V ++ suf` with a slash-free `name`, no
newline before `V` and no `V` inside `suf`, every match of the pattern has group `name`. -/
theorem pattern_exact (A M1 M2 M2i V Vt cs cap pre mid name suf s : List Char) (d0 : Char)
    (res : MatchResult)
    (hV : V = '/' :: Vt) (hVt : '/' ∉ Vt) (hM2 : M2 = M2i ++ ['/'])
    (hnl : '\n' ∉ pre ++ (A ++ (mid ++ (M1 ++ d0 :: (M2 ++ name)))))
    (hname : name ≠ []) (hslash : '/' ∉ name)
    (hfree : ∀ z, z <:+ suf → ¬ V <+: z)
    (hs : s <:+ pre ++ (A ++ (mid ++ (M1 ++ d0 :: (M2 ++ (name ++ (V ++ suf)))))))
    (h : matchFrom (Inst.starAnyNotNL :: (A.map Inst.char ++ (Inst.starAnyNotNL ::
      (M1.map Inst.char ++ (Inst.anyNotNL :: (M2.map Inst.char ++
        ([Inst.capOpen, Inst.anyNotNL, Inst.starAnyNotNL, Inst.capClose]
          ++ (V.map Inst.char ++ [Inst.starAnyNotNL])))))))) cs cap s = some res) :
    res.cap = name := by
  simp only [matchFrom] at h
  obtain ⟨u, v, hsv, _, hv⟩ := star_sound _ _ _ h
  rw [matchFrom_chars] at hv
  obtain ⟨t, hvt, ht⟩ := hv
  simp only [matchFrom] at ht
  have htsuf : t <:+ (pre ++ (A ++ mid)) ++ (M1 ++ d0 :: (M2 ++ (name ++ (V ++ suf)))) := by
    have h1 : t <:+ s := ⟨u ++ A, by rw [hsv, hvt]; simp⟩
    have h2 := List.IsSuffix.trans h1 hs
    simpa only [List.append_assoc] using h2
  refine middle_star_exact M1 M2 M2i V Vt cs cap (pre ++ (A ++ mid)) name suf t d0 res
    hV hVt hM2 ?_ hname hslash hfree htsuf ht
  simpa only [List.append_assoc] using hnl

/-- Claim C1 (as amended). `extractScaleSetNameByProviderID` returns `(name, nil)` exactly
when the providerID contains a match of the pattern, that is, can be written
`pre/subscriptions/mid/Microsoft?Compute/virtualMachineScaleSets/name/virtualMachines suf`
with `mid` newline-free, `?` one character other than a newline and `name` non-empty and
newline-free (slashes allowed), and then the returned name is the `name` of such a
decomposition; in every other case it returns the empty string with the error
`not a vmss instance`; these are its only outcomes.  When the providerID has the strict
shape with a literal `.`, a slash-free non-empty `name`, no newline before
`/virtualMachines` and no further `/virtualMachines` after it, the result is exactly
`name`. -/
theorem C1_extractScaleSetName_follows_pattern :
    (∀ providerID name : GoString,
      extractScaleSetNameByProviderID providerID = (name, none) →
        ∃ pre mid d suf, providerID = pre ++ ("/subscriptions/".toList ++ (mid ++
            ("/Microsoft".toList ++ d :: ("Compute/virtualMachineScaleSets/".toList ++
              (name ++ ("/virtualMachines".toList ++ suf))))))
          ∧ '\n' ∉ mid ∧ d ≠ '\n' ∧ name ≠ [] ∧ '\n' ∉ name)
    ∧ (∀ pre mid name suf : GoString, ∀ d : Char,
        '\n' ∉ mid → d ≠ '\n' → name ≠ [] → '\n' ∉ name →
        (extractScaleSetNameByProviderID (pre ++ ("/subscriptions/".toList ++ (mid ++
            ("/Microsoft".toList ++ d :: ("Compute/virtualMachineScaleSets/".toList ++
              (name ++ ("/virtualMachines".toList ++ suf)))))))).2 = none)
    ∧ (∀ providerID : GoString,
        (extractScaleSetNameByProviderID providerID).2 = none ∨
        extractScaleSetNameByProviderID providerID = ([], some errNotVmss))
    ∧ (∀ pre mid name suf : GoString,
        name ≠ [] → '/' ∉ name → '\n' ∉ pre ++ (mid ++ name) →
        (∀ z, z <:+ suf → ¬ "/virtualMachines".toList <+: z) →
        extractScaleSetNameByProviderID (pre ++ ("/subscriptions/".toList ++ (mid ++
            ("/Microsoft.Compute/virtualMachineScaleSets/".toList ++
              (name ++ ("/virtualMachines".toList ++ suf))))))
          = (name, none)) := by
  refine ⟨?_, ?_, ?_, ?_⟩
  · intro providerID name h
    rcases FindStringSubmatch_cases scaleSetNameRE providerID with
      ⟨hnil, _⟩ | ⟨s0, res, whole, hs0, hm, hf⟩
    · rw [extract_of_not_found providerID hnil] at h
      simp at h
    · rw [extract_of_found providerID whole res.cap hf] at h
      simp only [Prod.mk.injEq, and_true] at h
      rw [scaleSetNameRE_eq] at hm
      obtain ⟨u, mid, d, capt, rest, hs, _, hmid, hd, hcne, hcnl, hcap⟩ :=
        pattern_sound _ _ _ _ _ _ _ _ hm
      obtain ⟨p, hp⟩ := hs0
      refine ⟨p ++ u, mid, d, rest, ?_, hmid, hd, ?_, ?_⟩
      · rw [← hp, hs, ← h, hcap]
        simp only [List.append_assoc]
      · rw [← h, hcap]; exact hcne
      · rw [← h, hcap]; exact hcnl
  · intro pre mid name suf d hmid hd hne hnl
    have hsome := pattern_complete "/subscriptions/".toList "/Microsoft".toList
      "Compute/virtualMachineScaleSets/".toList "/virtualMachines".toList [] [] [] mid name suf d
      (by simp) hmid hd hne hnl
    rw [← scaleSetNameRE_eq] at hsome
    obtain ⟨res, hres⟩ := Option.isSome_iff_exists.1 hsome
    rcases FindStringSubmatch_cases scaleSetNameRE (pre ++ ("/subscriptions/".toList ++ (mid ++
        ("/Microsoft".toList ++ d :: ("Compute/virtualMachineScaleSets/".toList ++
          (name ++ ("/virtualMachines".toList ++ suf))))))) with
      ⟨_, hall⟩ | ⟨s0, res2, whole, _, _, hf⟩
    · have := hall _ (List.suffix_append pre _)
      rw [List.nil_append] at hres
      rw [hres] at this
      simp at this
    · rw [extract_of_found _ whole res2.cap hf]
  · intro providerID
    rcases FindStringSubmatch_cases scaleSetNameRE providerID with
      ⟨hnil, _⟩ | ⟨s0, res, whole, _, _, hf⟩
    · exact Or.inr (extract_of_not_found providerID hnil)
    · exact Or.inl (by rw [extract_of_found providerID whole res.cap hf])
  · intro pre mid name suf hne hslash hnl hfree
    have hM : "/Microsoft.Compute/virtualMachineScaleSets/".toList
        = "/Microsoft".toList ++ '.' :: "Compute/virtualMachineScaleSets/".toList := by decide
    rw [hM]
    have hnl2 : '\n' ∉ pre ++ ("/subscriptions/".toList ++ (mid ++
        ("/Microsoft".toList ++ '.' :: ("Compute/virtualMachineScaleSets/".toList ++ name)))) := by
      have hA : '\n' ∉ "/subscriptions/".toList := by decide
      have hM1 : '\n' ∉ "/Microsoft".toList := by decide
      have hM2 : '\n' ∉ "Compute/virtualMachineScaleSets/".toList := by decide
      simp only [List.mem_append, List.mem_cons, not_or] at hnl ⊢
      exact ⟨hnl.1, hA, hnl.2.1, hM1, by decide, hM2, hnl.2.2⟩
    rcases FindStringSubmatch_cases scaleSetNameRE (pre ++ ("/subscriptions/".toList ++ (mid ++
        (("/Microsoft".toList ++ '.' :: "Compute/virtualMachineScaleSets/".toList) ++
          (name ++ ("/virtualMachines".toList ++ suf)))))) with
      ⟨_, hall⟩ | ⟨s0, res, whole, hs0, hm, hf⟩
    · exfalso
      have hsome := pattern_complete "/subscriptions/".toList "/Microsoft".toList
        "Compute/virtualMachineScaleSets/".toList "/virtualMachines".toList [] [] pre mid name
        suf '.' (by
          intro e; apply hnl; simp [e]) (by
          intro e; apply hnl; simp [e]) (by decide) hne (by
          intro e; apply hnl; simp [e])
      rw [← scaleSetNameRE_eq] at hsome
      have := hall _ List.suffix_rfl
      simp only [List.append_assoc, List.cons_append] at this
      rw [this] at hsome
      simp at hsome
    · rw [extract_of_found _ whole res.cap hf]
      rw [scaleSetNameRE_eq] at hm
      simp only [List.append_assoc, List.cons_append] at hs0
      have := pattern_exact "/subscriptions/".toList "/Microsoft".toList
        "Compute/virtualMachineScaleSets/".toList "Compute/virtualMachineScaleSets".toList
        "/virtualMachines".toList "virtualMachines".toList [] [] pre mid name suf s0 '.' res
        (by decide) (by decide) (by decide) hnl2 hne hslash hfree hs0 hm
      rw [this]

theorem no_occurrence_of_short (V suf : List Char) (h : suf.length < V.length) :
    ∀ z, z <:+ suf → ¬ V <+: z := by
  intro z hz hpre
  have h1 := hz.length_le
  have h2 := hpre.length_le
  omega

/-- Witness for C1: the providerID of scale-set instance 3 of `vmss-pool-0`. -/
theorem C1_extractScaleSetName_follows_pattern_witness :
    extractScaleSetNameByProviderID
        ("azure://".toList ++ ("/subscriptions/".toList ++
          ("sub/resourceGroups/rg/providers".toList ++
            ("/Microsoft.Compute/virtualMachineScaleSets/".toList ++
              ("vmss-pool-0".toList ++ ("/virtualMachines".toList ++ "/3".toList))))))
      = ("vmss-pool-0".toList, none) :=
  C1_extractScaleSetName_follows_pattern.2.2.2 "azure://".toList
    "sub/resourceGroups/rg/providers".toList "vmss-pool-0".toList "/3".toList
    (by decide) (by decide) (by decide)
    (no_occurrence_of_short _ _ (by decide))

/-- Claim C1 (counterexample). The claim as stated fails in both halves.  On a providerID of
the stated shape with the slash-free name `a`, in which `/virtualMachines` occurs a
second time, the greedy group returns `a/virtualMachines/0`; and a string that is not of
the stated shape (it has no `.` at all) is accepted, because the `.` of the pattern matches
any character. -/
theorem C1_counterexample_greedy_group_and_wildcard_dot :
    (extractScaleSetNameByProviderID
        ([] ++ ("/subscriptions/".toList ++ ("s".toList ++
          ("/Microsoft.Compute/virtualMachineScaleSets/".toList ++
            ("a".toList ++ ("/virtualMachines".toList ++ "/0/virtualMachines/1".toList))))))
      = ("a/virtualMachines/0".toList, none))
    ∧ ¬ (∀ pre mid name suf : GoString, name ≠ [] → '/' ∉ name →
        extractScaleSetNameByProviderID (pre ++ ("/subscriptions/".toList ++ (mid ++
            ("/Microsoft.Compute/virtualMachineScaleSets/".toList ++
              (name ++ ("/virtualMachines".toList ++ suf))))))
          = (name, none))
    ∧ (extractScaleSetNameByProviderID
        "/subscriptions/s/MicrosoftXCompute/virtualMachineScaleSets/a/virtualMachines/0".toList
      = ("a".toList, none))
    ∧ ¬ (∀ providerID : GoString,
        (¬ ∃ pre mid name suf : GoString, name ≠ [] ∧ '/' ∉ name ∧
          providerID = pre ++ ("/subscriptions/".toList ++ (mid ++
            ("/Microsoft.Compute/virtualMachineScaleSets/".toList ++
              (name ++ ("/virtualMachines".toList ++ suf)))))) →
        extractScaleSetNameByProviderID providerID = ([], some errNotVmss)) := by
  have h1 : extractScaleSetNameByProviderID
        ([] ++ ("/subscriptions/".toList ++ ("s".toList ++
          ("/Microsoft.Compute/virtualMachineScaleSets/".toList ++
            ("a".toList ++ ("/virtualMachines".toList ++ "/0/virtualMachines/1".toList))))))
      = ("a/virtualMachines/0".toList, none) := by decide
  have h2 : extractScaleSetNameByProviderID
        "/subscriptions/s/MicrosoftXCompute/virtualMachineScaleSets/a/virtualMachines/0".toList
      = ("a".toList, none) := by decide
  refine ⟨h1, ?_, h2, ?_⟩
  · intro hall
    have := hall [] "s".toList "a".toList "/0/virtualMachines/1".toList (by decide) (by decide)
    rw [h1] at this
    exact absurd this (by decide)
  · intro hall
    have := hall
      "/subscriptions/s/MicrosoftXCompute/virtualMachineScaleSets/a/virtualMachines/0".toList
      (by
        rintro ⟨pre, mid, name, suf, _, _, hshape⟩
        have hdot : '.' ∈
            "/subscriptions/s/MicrosoftXCompute/virtualMachineScaleSets/a/virtualMachines/0".toList := by
          rw [hshape]
          have : '.' ∈ "/Microsoft.Compute/virtualMachineScaleSets/".toList := by decide
          simp only [List.mem_append]
          exact Or.inr (Or.inr (Or.inr (Or.inl this)))
        exact absurd hdot (by decide))
    rw [h2] at this
    exact absurd this (by decide)

/-! ## The orchestration functions -/

set_option maxRecDepth 100000 in
theorem simStandaloneID_not_vmss :
    extractScaleSetNameByProviderID simStandaloneID = ([], some errNotVmss) := by decide

set_option maxRecDepth 100000 in
theorem simScaleSetID_vmss :
    extractScaleSetNameByProviderID simScaleSetID = ("vmss-pool-0".toList, none) := by decide

/-- The assignment to IP configuration 0 succeeds when every pointer on the way is set. -/
theorem setPublicIPOfFirstConfiguration_ok (nic : Interface) (ip : Option PublicIPAddress)
    (properties : InterfacePropertiesFormat) (first : InterfaceIPConfiguration)
    (rest : List InterfaceIPConfiguration)
    (firstProperties : InterfaceIPConfigurationPropertiesFormat) (nicID name : GoString)
    (h1 : nic.InterfacePropertiesFormat = some properties)
    (h2 : properties.IPConfigurations = some (first :: rest))
    (h3 : first.InterfaceIPConfigurationPropertiesFormat = some firstProperties)
    (h4 : nic.ID = some nicID) (h5 : getResourceName nicID = .ok name) :
    setPublicIPOfFirstConfiguration nic ip = .ok (name,
      { nic with
        InterfacePropertiesFormat := some
          { properties with
            IPConfigurations := some
              ({ first with
                 InterfaceIPConfigurationPropertiesFormat := some
                   { firstProperties with PublicIPAddress := ip } } :: rest) } }) := by
  simp [setPublicIPOfFirstConfiguration, h1, h2, h3, h4, h5, deref, index, bind, Except.bind,
    pure, Except.pure]

/-- When the assignment to IP configuration 0 succeeds, every pointer on the way is set and
the interface handed on differs from the fetched one in that field only. -/
theorem setPublicIPOfFirstConfiguration_inv (nic nic1 : Interface)
    (ip : Option PublicIPAddress) (name : GoString)
    (h : setPublicIPOfFirstConfiguration nic ip = .ok (name, nic1)) :
    ∃ properties first rest firstProperties nicID,
      nic.InterfacePropertiesFormat = some properties
      ∧ properties.IPConfigurations = some (first :: rest)
      ∧ first.InterfaceIPConfigurationPropertiesFormat = some firstProperties
      ∧ nic.ID = some nicID ∧ getResourceName nicID = .ok name
      ∧ nic1 =
        { nic with
          InterfacePropertiesFormat := some
            { properties with
              IPConfigurations := some
                ({ first with
                   InterfaceIPConfigurationPropertiesFormat := some
                     { firstProperties with PublicIPAddress := ip } } :: rest) } } := by
  cases h1 : nic.InterfacePropertiesFormat with
  | none => simp [setPublicIPOfFirstConfiguration, h1, deref, bind, Except.bind] at h
  | some properties =>
    cases h2 : properties.IPConfigurations with
    | none => simp [setPublicIPOfFirstConfiguration, h1, h2, deref, bind, Except.bind] at h
    | some cfgs =>
      cases cfgs with
      | nil =>
        simp [setPublicIPOfFirstConfiguration, h1, h2, deref, index, bind, Except.bind] at h
      | cons first rest =>
        cases h3 : first.InterfaceIPConfigurationPropertiesFormat with
        | none =>
          simp [setPublicIPOfFirstConfiguration, h1, h2, h3, deref, index, bind,
            Except.bind] at h
        | some firstProperties =>
          cases h4 : nic.ID with
          | none =>
            simp [setPublicIPOfFirstConfiguration, h1, h2, h3, h4, deref, index, bind,
              Except.bind] at h
          | some nicID =>
            cases h5 : getResourceName nicID with
            | error p =>
              simp [setPublicIPOfFirstConfiguration, h1, h2, h3, h4, h5, deref, index, bind,
                Except.bind] at h
            | ok name2 =>
              have hok := setPublicIPOfFirstConfiguration_ok nic ip properties first rest
                firstProperties nicID name2 h1 h2 h3 h4 h5
              rw [hok] at h
              simp only [Except.ok.injEq, Prod.mk.injEq] at h
              refine ⟨properties, first, rest, firstProperties, nicID, rfl, h2, h3, rfl, ?_, ?_⟩
              · rw [h5, h.1]
              · rw [← h.2, h4]

/-- Claim C8. `DisassociatePublicIPForNode` is a no-op for scale-set members: when
`extractScaleSetNameByProviderID` succeeds on the providerID, it returns `nil` and issues
no client call at all (trace and remote state are those it started with). -/
theorem C8_disassociate_noop_for_scale_set_member {σ : Type} (az : Azure σ) (env : Env)
    (nodeName providerID : GoString) (w : World σ)
    (h : (extractScaleSetNameByProviderID providerID).2 = none) :
    DisassociatePublicIPForNode az env nodeName providerID w = (w, .ok ()) := by
  rcases hx : extractScaleSetNameByProviderID providerID with ⟨name, _ | e⟩
  · simp only [DisassociatePublicIPForNode, hx]
  · rw [hx] at h
    simp at h

/-- Witness for C8: instance 3 of `vmss-pool-0`. -/
theorem C8_disassociate_noop_for_scale_set_member_witness :
    DisassociatePublicIPForNode simAzure simEnv "vmss-pool-0_3".toList simScaleSetID
        ⟨simCloudScaleSet (simScaleSet none), []⟩
      = (⟨simCloudScaleSet (simScaleSet none), []⟩, .ok ()) :=
  C8_disassociate_noop_for_scale_set_member simAzure simEnv _ simScaleSetID _
    (by rw [simScaleSetID_vmss])

/-- Claim C4 (as amended). `DisassociatePublicIPForNode` on an already-disassociated IP: for
a providerID that is not a scale-set instance, when the public IP fetched under
`GetPublicIPName(nodeName)` carries its properties object and its `IPConfiguration`
back-reference is nil, the function returns `nil`; when the fetched IP carries no
properties object, the read of `IPConfiguration` panics.  In both cases the only client
call is that `Get` (no NIC `Get`, `CreateOrUpdate` or `Delete`) and the remote state is
unchanged. -/
theorem C4_disassociate_idempotent_when_unassociated {σ : Type} (az : Azure σ) (env : Env)
    (nodeName providerID : GoString) (w : World σ) (ipAddress : PublicIPAddress)
    (hnot : (extractScaleSetNameByProviderID providerID).2 ≠ none)
    (hget : az.ipGet w.state (env.GetPublicIPName nodeName) = .ok ipAddress) :
    (∀ properties, ipAddress.PublicIPAddressPropertiesFormat = some properties →
      properties.IPConfiguration = none →
      DisassociatePublicIPForNode az env nodeName providerID w
        = (⟨w.state, w.trace ++ [.ipGet (env.GetPublicIPName nodeName)]⟩, .ok ()))
    ∧ (ipAddress.PublicIPAddressPropertiesFormat = none →
      DisassociatePublicIPForNode az env nodeName providerID w
        = (⟨w.state, w.trace ++ [.ipGet (env.GetPublicIPName nodeName)]⟩,
            .panic .nilDereference)) := by
  rcases hx : extractScaleSetNameByProviderID providerID with ⟨name, _ | e⟩
  · rw [hx] at hnot
    simp at hnot
  · refine ⟨?_, ?_⟩
    · intro properties hprops hnil
      simp only [DisassociatePublicIPForNode, hx, World.read, hget, hprops, hnil]
    · intro hprops
      simp only [DisassociatePublicIPForNode, hx, World.read, hget, hprops]

/-- Witness for C4: `worker-1`, whose IP `worker-1-ip` is attached to nothing. -/
theorem C4_disassociate_idempotent_when_unassociated_witness :
    DisassociatePublicIPForNode simAzure simEnv "worker-1".toList simStandaloneID
        ⟨simCloudDetached, []⟩
      = (⟨simCloudDetached, [] ++ [.ipGet "worker-1-ip".toList]⟩, .ok ()) :=
  (C4_disassociate_idempotent_when_unassociated simAzure simEnv "worker-1".toList
    simStandaloneID ⟨simCloudDetached, []⟩ (simIP none)
    (by rw [simStandaloneID_not_vmss]; simp) rfl).1 _ rfl rfl

set_option maxRecDepth 100000 in
/-- Claim C4 (counterexample). The standalone node `worker-1` whose public IP `worker-1-ip`
is answered without a properties object, hence without any `IPConfiguration`
back-reference: `DisassociatePublicIPForNode` does not return success, it panics on the
read at line 195. -/
theorem C4_counterexample_ip_without_properties :
    simAzure.ipGet (simCloud (simNic none) [("worker-1-ip".toList, simIPWithoutProperties)]
        [] false) (simEnv.GetPublicIPName "worker-1".toList) = .ok simIPWithoutProperties
    ∧ simIPWithoutProperties.PublicIPAddressPropertiesFormat = none
    ∧ (DisassociatePublicIPForNode simAzure simEnv "worker-1".toList simStandaloneID
        ⟨simCloud (simNic none) [("worker-1-ip".toList, simIPWithoutProperties)] [] false,
          []⟩).2 = .panic .nilDereference := by
  refine ⟨rfl, rfl, ?_⟩
  rfl

/-- Claim C7 (as amended). `UpdateVMSSPublicIP` on a scale set with nothing to configure:
when `Get` succeeds and the resource carries its properties object with a nil
`VirtualMachineProfile`, or a nil `NetworkProfile`, or a nil or empty
`NetworkInterfaceConfigurations`, the function returns `nil`; when the resource carries
no properties object, the guard at line 254 panics.  In both cases the only client call is
that `Get` (neither `CreateOrUpdate` nor `UpdateInstances`) and the remote state is
unchanged. -/
theorem C7_updateVMSS_noop_without_interface_configurations {σ : Type} (az : Azure σ)
    (scaleSet : GoString) (w : World σ) (vmss : VirtualMachineScaleSet)
    (hget : az.vmssGet w.state scaleSet = .ok vmss) :
    (∀ properties, vmss.VirtualMachineScaleSetProperties = some properties →
      (properties.VirtualMachineProfile = none
        ∨ ∃ vmProfile, properties.VirtualMachineProfile = some vmProfile
            ∧ (vmProfile.NetworkProfile = none
              ∨ ∃ networkProfile, vmProfile.NetworkProfile = some networkProfile
                  ∧ (networkProfile.NetworkInterfaceConfigurations = none
                    ∨ networkProfile.NetworkInterfaceConfigurations = some []))) →
      UpdateVMSSPublicIP az scaleSet w
        = (⟨w.state, w.trace ++ [.vmssGet scaleSet]⟩, .ok ()))
    ∧ (vmss.VirtualMachineScaleSetProperties = none →
      UpdateVMSSPublicIP az scaleSet w
        = (⟨w.state, w.trace ++ [.vmssGet scaleSet]⟩, .panic .nilDereference)) := by
  refine ⟨?_, ?_⟩
  · intro properties h0 hempty
    rcases hempty with h1 | ⟨vmProfile, h1, h2 | ⟨networkProfile, h2, h3 | h3⟩⟩
    · simp only [UpdateVMSSPublicIP, World.read, hget, h0, h1]
    · simp only [UpdateVMSSPublicIP, World.read, hget, h0, h1, h2]
    · simp only [UpdateVMSSPublicIP, World.read, hget, h0, h1, h2, h3]
    · simp only [UpdateVMSSPublicIP, World.read, hget, h0, h1, h2, h3]
  · intro h0
    simp only [UpdateVMSSPublicIP, World.read, hget, h0]

/-- Witness for C7: a scale set whose properties hold no virtual-machine profile. -/
theorem C7_updateVMSS_noop_without_interface_configurations_witness :
    UpdateVMSSPublicIP simAzure "vmss-pool-0".toList
        ⟨simCloudScaleSet ⟨some ⟨none, ⟨[]⟩⟩, ⟨[]⟩⟩, []⟩
      = (⟨simCloudScaleSet ⟨some ⟨none, ⟨[]⟩⟩, ⟨[]⟩⟩, [] ++ [.vmssGet "vmss-pool-0".toList]⟩,
          .ok ()) :=
  (C7_updateVMSS_noop_without_interface_configurations simAzure "vmss-pool-0".toList
    ⟨simCloudScaleSet ⟨some ⟨none, ⟨[]⟩⟩, ⟨[]⟩⟩, []⟩ ⟨some ⟨none, ⟨[]⟩⟩, ⟨[]⟩⟩ rfl).1
    ⟨none, ⟨[]⟩⟩ rfl (Or.inl rfl)

/-- Claim C7 (counterexample). The scale set `vmss-pool-0` answered without a properties
object, hence without a `VirtualMachineProfile`: `UpdateVMSSPublicIP` does not return
success, it panics on the guard at line 254. -/
theorem C7_counterexample_scale_set_without_properties :
    simAzure.vmssGet (simCloudScaleSet ⟨none, ⟨[]⟩⟩) "vmss-pool-0".toList = .ok ⟨none, ⟨[]⟩⟩
    ∧ (UpdateVMSSPublicIP simAzure "vmss-pool-0".toList
        ⟨simCloudScaleSet ⟨none, ⟨[]⟩⟩, []⟩).2 = .panic .nilDereference :=
  ⟨rfl, rfl⟩

/-- Whenever the first interface configuration of the fetched scale set carries an
IP-configuration list that is present but empty, `UpdateVMSSPublicIP` panics. -/
theorem updateVMSS_panics_on_empty_ip_configurations {σ : Type} (az : Azure σ)
    (scaleSet : GoString) (w : World σ) (vmss : VirtualMachineScaleSet)
    (properties : VirtualMachineScaleSetProperties)
    (vmProfile : VirtualMachineScaleSetVMProfile)
    (networkProfile : VirtualMachineScaleSetNetworkProfile)
    (iface0 : VirtualMachineScaleSetNetworkConfiguration)
    (ifaceProperties : VirtualMachineScaleSetNetworkConfigurationProperties)
    (ifaces : List VirtualMachineScaleSetNetworkConfiguration)
    (hget : az.vmssGet w.state scaleSet = .ok vmss)
    (h0 : vmss.VirtualMachineScaleSetProperties = some properties)
    (h1 : properties.VirtualMachineProfile = some vmProfile)
    (h2 : vmProfile.NetworkProfile = some networkProfile)
    (h3 : networkProfile.NetworkInterfaceConfigurations = some (iface0 :: ifaces))
    (h4 : iface0.VirtualMachineScaleSetNetworkConfigurationProperties = some ifaceProperties)
    (h5 : ifaceProperties.IPConfigurations = some []) :
    (UpdateVMSSPublicIP az scaleSet w).2 = .panic .indexOutOfRange := by
  simp only [UpdateVMSSPublicIP, World.read, hget, h0, h1, h2, h3, h4, h5]

/-- Claim C10 (failing input). On the scale set `vmss-pool-0` whose first interface
configuration has a present but empty IP-configuration list, `UpdateVMSSPublicIP` ends in
an index-out-of-range panic: the access `ips[0]` is guarded against a nil list only. -/
theorem C10_updateVMSS_index_out_of_range_on_empty_list :
    (UpdateVMSSPublicIP simAzure "vmss-pool-0".toList
        ⟨simCloudScaleSet (simScaleSet (some [])), []⟩).2 = .panic .indexOutOfRange := by
  rfl

/-- Claim C2 (as amended). `DeletePublicIP` has no special case for not-found: it returns
`nil` exactly when both the remote `Delete` call and the wait on its operation succeed;
when `Delete` reports an error, not-found included, it returns that error wrapped as
`cannot delete Public IP address`, and when the wait reports an error it returns that
error wrapped as well.  A second call on the same name therefore succeeds only if the
remote itself reports success for deleting an absent IP. -/
theorem C2_deletePublicIP_propagates_every_error {σ : Type} (az : Azure σ)
    (ipName : GoString) (w : World σ) :
    (∀ s1 e, az.ipDelete w.state ipName = (s1, .error e) →
      (DeletePublicIP az ipName w).2
        = .err (.wrapf "cannot delete Public IP address %s: %v" [ipName] e))
    ∧ (∀ s1 future s2 e, az.ipDelete w.state ipName = (s1, .ok future) →
        az.waitForCompletion s1 future = (s2, some e) →
        (DeletePublicIP az ipName w).2
          = .err (.wrapf "cannot get public ip address %s CreateOrUpdate method's response: %v"
              [ipName] e))
    ∧ (∀ s1 future s2, az.ipDelete w.state ipName = (s1, .ok future) →
        az.waitForCompletion s1 future = (s2, none) →
        (DeletePublicIP az ipName w).2 = .ok ()) := by
  refine ⟨?_, ?_, ?_⟩
  · intro s1 e h
    simp only [DeletePublicIP, World.call, h]
  · intro s1 future s2 e h1 h2
    simp only [DeletePublicIP, World.call, h1, h2]
  · intro s1 future s2 h1 h2
    simp only [DeletePublicIP, World.call, h1, h2]

/-- Witness for C2: deleting the existing IP `worker-1-ip` succeeds. -/
theorem C2_deletePublicIP_propagates_every_error_witness :
    (DeletePublicIP simAzure "worker-1-ip".toList ⟨simCloudDetached, []⟩).2 = .ok () :=
  (C2_deletePublicIP_propagates_every_error simAzure "worker-1-ip".toList
    ⟨simCloudDetached, []⟩).2.2 _ ⟨0⟩ _ rfl rfl

/-- Claim C2 (counterexample). Deleting `worker-1-ip` twice in a row: the first call
succeeds; on the second the remote `Delete` reports not-found and `DeletePublicIP` returns
an error, not success. -/
theorem C2_counterexample_second_delete_returns_error :
    (DeletePublicIP simAzure "worker-1-ip".toList ⟨simCloudDetached, []⟩).2 = .ok ()
    ∧ (simAzure.ipDelete
        (DeletePublicIP simAzure "worker-1-ip".toList ⟨simCloudDetached, []⟩).1.state
        "worker-1-ip".toList).2 = .error notFound
    ∧ notFound.isNotFound = true
    ∧ (DeletePublicIP simAzure "worker-1-ip".toList
        (DeletePublicIP simAzure "worker-1-ip".toList ⟨simCloudDetached, []⟩).1).2
      = .err (.wrapf "cannot delete Public IP address %s: %v" ["worker-1-ip".toList] notFound)
    ∧ ¬ (∀ (az : Azure Cloud) (ipName : GoString) (w : World Cloud) (e : GoError),
        (az.ipDelete w.state ipName).2 = .error e → e.isNotFound = true →
        (DeletePublicIP az ipName w).2 = .ok ()) := by
  refine ⟨rfl, rfl, rfl, rfl, ?_⟩
  intro hall
  have := hall simAzure "worker-1-ip".toList
    (DeletePublicIP simAzure "worker-1-ip".toList ⟨simCloudDetached, []⟩).1 notFound rfl rfl
  have hres : (DeletePublicIP simAzure "worker-1-ip".toList
        (DeletePublicIP simAzure "worker-1-ip".toList ⟨simCloudDetached, []⟩).1).2
      = .err (.wrapf "cannot delete Public IP address %s: %v" ["worker-1-ip".toList] notFound) :=
    rfl
  rw [hres] at this
  exact Ret.noConfusion this

/-- Claim C3 (as amended). `DisassociatePublicIPForNode` does not tolerate a failing final
delete: for a standalone node whose public IP has a back-reference and whose NIC `Get`,
NIC `CreateOrUpdate` and the wait on it succeed, if the NIC `Delete` call reports an error,
not-found included, the function returns that error wrapped as `cannot delete NIC ... NIC
may have already been deleted`; if the wait on the delete reports an error it returns that
error wrapped as well; it returns `nil` when both succeed. -/
theorem C3_disassociate_reports_failed_interface_delete {σ : Type} (az : Azure σ) (env : Env)
    (nodeName providerID : GoString) (w : World σ)
    (ipAddress : PublicIPAddress) (ipProperties : PublicIPAddressPropertiesFormat)
    (backReference : IPConfiguration)
    (ipConfiguration nicName nicID name : GoString) (nic : Interface)
    (properties : InterfacePropertiesFormat)
    (first : InterfaceIPConfiguration) (rest : List InterfaceIPConfiguration)
    (firstProperties : InterfaceIPConfigurationPropertiesFormat)
    (future : Future) (s1 s2 : σ)
    (hnot : (extractScaleSetNameByProviderID providerID).2 ≠ none)
    (hip : az.ipGet w.state (env.GetPublicIPName nodeName) = .ok ipAddress)
    (hipProps : ipAddress.PublicIPAddressPropertiesFormat = some ipProperties)
    (hback : ipProperties.IPConfiguration = some backReference)
    (hid : backReference.ID = some ipConfiguration)
    (hnicName : getNICNameFromIPConfiguration ipConfiguration = .ok nicName)
    (hnic : az.nicGet w.state nicName = .ok nic)
    (hprops : nic.InterfacePropertiesFormat = some properties)
    (hcfgs : properties.IPConfigurations = some (first :: rest))
    (hfirst : first.InterfaceIPConfigurationPropertiesFormat = some firstProperties)
    (hnicID : nic.ID = some nicID)
    (hname : getResourceName nicID = .ok name)
    (hupd : az.nicCreateOrUpdate w.state name
      { nic with
        InterfacePropertiesFormat := some
          { properties with
            IPConfigurations := some
              ({ first with
                 InterfaceIPConfigurationPropertiesFormat := some
                   { firstProperties with PublicIPAddress := none } } :: rest) } }
        = (s1, .ok future))
    (hwait : az.waitForCompletion s1 future = (s2, none)) :
    (∀ s3 e, az.nicDelete s2 name = (s3, .error e) →
      (DisassociatePublicIPForNode az env nodeName providerID w).2
        = .err (.wrapf
            "cannot delete NIC for Node %s, error: %v. NIC may have already been deleted"
            [nodeName] e))
    ∧ (∀ s3 futureDelete s4 e, az.nicDelete s2 name = (s3, .ok futureDelete) →
        az.waitForCompletion s3 futureDelete = (s4, some e) →
        (DisassociatePublicIPForNode az env nodeName providerID w).2
          = .err (.wrapf
              "cannot get NIC Delete response for Node %s:, error: %v. NIC may have already been deleted"
              [nodeName] e))
    ∧ (∀ s3 futureDelete s4, az.nicDelete s2 name = (s3, .ok futureDelete) →
        az.waitForCompletion s3 futureDelete = (s4, none) →
        (DisassociatePublicIPForNode az env nodeName providerID w).2 = .ok ()) := by
  rcases hx : extractScaleSetNameByProviderID providerID with ⟨scaleSet, _ | e0⟩
  · rw [hx] at hnot
    simp at hnot
  · have hset := setPublicIPOfFirstConfiguration_ok nic none properties first rest
      firstProperties nicID name hprops hcfgs hfirst hnicID hname
    refine ⟨?_, ?_, ?_⟩
    · intro s3 e h
      simp [DisassociatePublicIPForNode, hx, World.read, World.call, hip, hipProps, hback, hid,
        deref, hnicName, hnic, hset, bind, Except.bind, hupd, hwait, h]
    · intro s3 futureDelete s4 e h1 h2
      simp [DisassociatePublicIPForNode, hx, World.read, World.call, hip, hipProps, hback, hid,
        deref, hnicName, hnic, hset, bind, Except.bind, hupd, hwait, h1, h2]
    · intro s3 futureDelete s4 h1 h2
      simp [DisassociatePublicIPForNode, hx, World.read, World.call, hip, hipProps, hback, hid,
        deref, hnicName, hnic, hset, bind, Except.bind, hupd, hwait, h1, h2]

set_option maxRecDepth 100000 in
/-- Witness for C3: tearing down `worker-1` with no concurrent scale-in succeeds. -/
theorem C3_disassociate_reports_failed_interface_delete_witness :
    (DisassociatePublicIPForNode simAzure simEnv "worker-1".toList simStandaloneID
        ⟨simCloudAttached [], []⟩).2 = .ok () :=
  (C3_disassociate_reports_failed_interface_delete simAzure simEnv "worker-1".toList
    simStandaloneID ⟨simCloudAttached [], []⟩
    (simIP (some simBackReference))
    ⟨.Dynamic, .IPv4, some simBackReference, ⟨[]⟩⟩ simBackReference
    (simNicID ++ "/ipConfigurations/ipconfig1".toList) "worker-1-nic".toList simNicID
    "worker-1-nic".toList (simNic (some (simIP none)))
    ⟨some [simNicConfiguration (some (simIP none))], ⟨[]⟩⟩
    (simNicConfiguration (some (simIP none))) [] ⟨some (simIP none), ⟨[]⟩⟩ ⟨0⟩ _ _
    (by rw [simStandaloneID_not_vmss]; simp) rfl rfl rfl rfl rfl rfl rfl rfl rfl rfl rfl rfl
    rfl).2.2 _ ⟨0⟩ _ rfl rfl

set_option maxRecDepth 100000 in
/-- Claim C3 (counterexample). Teardown of `worker-1` while a scale-in removes its interface
between the disassociating update and the explicit delete: the IP has a back-reference, NIC
`Get` and `CreateOrUpdate` succeed, the NIC `Delete` reports not-found, and
`DisassociatePublicIPForNode` returns an error, not success. -/
theorem C3_counterexample_interface_removed_concurrently :
    (DisassociatePublicIPForNode simAzure simEnv "worker-1".toList simStandaloneID
        ⟨simCloudAttached ["worker-1-nic".toList], []⟩).2
      = .err (.wrapf
          "cannot delete NIC for Node %s, error: %v. NIC may have already been deleted"
          ["worker-1".toList] notFound)
    ∧ notFound.isNotFound = true
    ∧ (DisassociatePublicIPForNode simAzure simEnv "worker-1".toList simStandaloneID
        ⟨simCloudAttached ["worker-1-nic".toList], []⟩).1.trace
      = [.ipGet "worker-1-ip".toList, .nicGet "worker-1-nic".toList,
          .nicCreateOrUpdate "worker-1-nic".toList (simNic none),
          .waitForCompletion ⟨0⟩, .nicDelete "worker-1-nic".toList] := by
  refine ⟨?_, rfl, ?_⟩
  · rfl
  · rfl

/-- Every call issued by `UpdateVMSSPublicIP` goes through the scale-set client. -/
theorem updateVMSS_calls_scale_set_client_only {σ : Type} (az : Azure σ)
    (scaleSet : GoString) (w : World σ) :
    ∃ calls, (UpdateVMSSPublicIP az scaleSet w).1.trace = w.trace ++ calls
      ∧ ∀ c ∈ calls, c.isScaleSetCall = true := by
  unfold UpdateVMSSPublicIP
  simp only [World.read, World.call]
  repeat' split
  all_goals simp only [Prod.mk.injEq] at *
  all_goals casesm* _ ∧ _
  all_goals subst_vars
  all_goals simp only [List.append_assoc, List.singleton_append, List.cons_append,
    List.nil_append]
  all_goals exact ⟨_, rfl, by simp [Call.isScaleSetCall]⟩

/-- Claim C6 (as amended). Scale-set routing end to end.  When
`extractScaleSetNameByProviderID` yields the scale-set name `scaleSet`,
`CreateOrUpdateVMPulicIP` is exactly `UpdateVMSSPublicIP scaleSet` (same result, same calls,
same remote state), and every call it issues goes through the scale-set client (no VM, NIC
or public-IP call).  When the fetched scale set has a non-empty interface-configuration
list whose first entry has a non-empty IP-configuration list, the first IP configuration
carries its properties object and every remote call succeeds, the calls are, in order:
`Get`, `CreateOrUpdate` of the fetched scale set in which only the public-IP template of IP
configuration 0 of interface configuration 0 is replaced by one with name
`scaleSet_public_ip` and no properties, the wait on it, `UpdateInstances` with selector
`["*"]`, and the wait on it; the result is `nil`.  When the first IP configuration carries
no properties object, the write of the template panics after the `Get` and nothing is
changed. -/
theorem C6_scale_set_routing {σ : Type} (az : Azure σ) (env : Env)
    (vmName providerID ipName scaleSet : GoString) (w : World σ)
    (hx : extractScaleSetNameByProviderID providerID = (scaleSet, none)) :
    CreateOrUpdateVMPulicIP az env vmName providerID ipName w = UpdateVMSSPublicIP az scaleSet w
    ∧ (∃ calls, (CreateOrUpdateVMPulicIP az env vmName providerID ipName w).1.trace
          = w.trace ++ calls ∧ ∀ c ∈ calls, c.isScaleSetCall = true)
    ∧ (∀ (vmss : VirtualMachineScaleSet) (properties : VirtualMachineScaleSetProperties)
        (vmProfile : VirtualMachineScaleSetVMProfile)
        (networkProfile : VirtualMachineScaleSetNetworkProfile)
        (iface0 : VirtualMachineScaleSetNetworkConfiguration)
        (ifaceProperties : VirtualMachineScaleSetNetworkConfigurationProperties)
        (ifaces : List VirtualMachineScaleSetNetworkConfiguration)
        (ip0 : VirtualMachineScaleSetIPConfiguration)
        (ips : List VirtualMachineScaleSetIPConfiguration),
        az.vmssGet w.state scaleSet = .ok vmss →
        vmss.VirtualMachineScaleSetProperties = some properties →
        properties.VirtualMachineProfile = some vmProfile →
        vmProfile.NetworkProfile = some networkProfile →
        networkProfile.NetworkInterfaceConfigurations = some (iface0 :: ifaces) →
        iface0.VirtualMachineScaleSetNetworkConfigurationProperties = some ifaceProperties →
        ifaceProperties.IPConfigurations = some (ip0 :: ips) →
        (∀ (ipProperties : VirtualMachineScaleSetIPConfigurationProperties)
          (updated : VirtualMachineScaleSet) (f1 f2 : Future) (s1 s2 s3 s4 : σ),
          ip0.VirtualMachineScaleSetIPConfigurationProperties = some ipProperties →
          updated =
            { vmss with
              VirtualMachineScaleSetProperties := some
                { properties with
                  VirtualMachineProfile := some
                    { vmProfile with
                      NetworkProfile := some
                        { networkProfile with
                          NetworkInterfaceConfigurations := some
                            ({ iface0 with
                               VirtualMachineScaleSetNetworkConfigurationProperties := some
                                 { ifaceProperties with
                                   IPConfigurations := some
                                     ({ ip0 with
                                        VirtualMachineScaleSetIPConfigurationProperties := some
                                          { ipProperties with
                                            PublicIPAddressConfiguration := some
                                              ⟨some (scaleSet ++ "_public_ip".toList), none⟩ } }
                                       :: ips) } }
                              :: ifaces) } } } } →
          az.vmssCreateOrUpdate w.state scaleSet updated = (s1, .ok f1) →
          az.waitForCompletion s1 f1 = (s2, none) →
          az.vmssUpdateInstances s2 scaleSet ["*".toList] = (s3, .ok f2) →
          az.waitForCompletion s3 f2 = (s4, none) →
          CreateOrUpdateVMPulicIP az env vmName providerID ipName w
            = (⟨s4, w.trace ++ [.vmssGet scaleSet, .vmssCreateOrUpdate scaleSet updated,
                  .waitForCompletion f1, .vmssUpdateInstances scaleSet ["*".toList],
                  .waitForCompletion f2]⟩, .ok ())
          ∧ ((CreateOrUpdateVMPulicIP az env vmName providerID ipName w).1.trace.drop
                w.trace.length).filter Call.isMutation
              = [.vmssCreateOrUpdate scaleSet updated,
                  .vmssUpdateInstances scaleSet ["*".toList]])
        ∧ (ip0.VirtualMachineScaleSetIPConfigurationProperties = none →
          CreateOrUpdateVMPulicIP az env vmName providerID ipName w
            = (⟨w.state, w.trace ++ [.vmssGet scaleSet]⟩, .panic .nilDereference))) := by
  have hroute : CreateOrUpdateVMPulicIP az env vmName providerID ipName w
      = UpdateVMSSPublicIP az scaleSet w := by
    simp only [CreateOrUpdateVMPulicIP, hx]
  refine ⟨hroute, ?_, ?_⟩
  · rw [hroute]
    exact updateVMSS_calls_scale_set_client_only az scaleSet w
  · intro vmss properties vmProfile networkProfile iface0 ifaceProperties ifaces ip0 ips
      hget h0 h1 h2 h3 h4 h5
    refine ⟨?_, ?_⟩
    · intro ipProperties updated f1 f2 s1 s2 s3 s4 h6 hupd hcou hwait1 hinst hwait2
      rw [hupd] at hcou
      have hrun : UpdateVMSSPublicIP az scaleSet w
          = (⟨s4, w.trace ++ [.vmssGet scaleSet, .vmssCreateOrUpdate scaleSet updated,
                .waitForCompletion f1, .vmssUpdateInstances scaleSet ["*".toList],
                .waitForCompletion f2]⟩, .ok ()) := by
        simp only [hupd, UpdateVMSSPublicIP, World.read, World.call, hget, h0, h1, h2, h3, h4,
          h5, h6, hcou, hwait1, hinst, hwait2, List.append_assoc, List.singleton_append,
          List.cons_append, List.nil_append]
      rw [hroute, hrun]
      refine ⟨rfl, ?_⟩
      simp [Call.isMutation]
    · intro h6
      rw [hroute]
      simp only [UpdateVMSSPublicIP, World.read, hget, h0, h1, h2, h3, h4, h5, h6]

set_option maxRecDepth 100000 in
/-- Witness for C6: instance 3 of `vmss-pool-0`, whose first interface configuration has one
IP configuration. -/
theorem C6_scale_set_routing_witness :
    (CreateOrUpdateVMPulicIP simAzure simEnv "vmss-pool-0_3".toList simScaleSetID
        "vmss-pool-0_3-ip".toList
        ⟨simCloudScaleSet (simScaleSet (some [simScaleSetIPConfiguration none])), []⟩).2
      = .ok ()
    ∧ ((CreateOrUpdateVMPulicIP simAzure simEnv "vmss-pool-0_3".toList simScaleSetID
        "vmss-pool-0_3-ip".toList
        ⟨simCloudScaleSet (simScaleSet (some [simScaleSetIPConfiguration none])),
          []⟩).1.trace.drop ([] : List Call).length).filter Call.isMutation
      = [.vmssCreateOrUpdate "vmss-pool-0".toList
            (simScaleSet (some [simScaleSetIPConfiguration
              (some ⟨some "vmss-pool-0_public_ip".toList, none⟩)])),
          .vmssUpdateInstances "vmss-pool-0".toList ["*".toList]] :=
  ⟨congrArg Prod.snd
      (((C6_scale_set_routing simAzure simEnv "vmss-pool-0_3".toList simScaleSetID
        "vmss-pool-0_3-ip".toList "vmss-pool-0".toList
        ⟨simCloudScaleSet (simScaleSet (some [simScaleSetIPConfiguration none])), []⟩
        simScaleSetID_vmss).2.2 _ _ _ _ _ _ _ _ _
        rfl rfl rfl rfl rfl rfl rfl).1 _ _ ⟨0⟩ ⟨0⟩ _ _ _ _ rfl rfl rfl rfl rfl rfl).1,
    (((C6_scale_set_routing simAzure simEnv "vmss-pool-0_3".toList simScaleSetID
        "vmss-pool-0_3-ip".toList "vmss-pool-0".toList
        ⟨simCloudScaleSet (simScaleSet (some [simScaleSetIPConfiguration none])), []⟩
        simScaleSetID_vmss).2.2 _ _ _ _ _ _ _ _ _
        rfl rfl rfl rfl rfl rfl rfl).1 _ _ ⟨0⟩ ⟨0⟩ _ _ _ _ rfl rfl rfl rfl rfl rfl).2⟩

set_option maxRecDepth 100000 in
/-- Claim C6 (counterexample). Instance 3 of the scale set `vmss-pool-0`, which has one
interface configuration with one IP configuration, that IP configuration carrying no
properties object; the `Get` succeeds and no other remote call could fail.
`CreateOrUpdateVMPulicIP` issues neither `CreateOrUpdate` nor `UpdateInstances`: it panics
on the write at line 259. -/
theorem C6_counterexample_ip_configuration_without_properties :
    extractScaleSetNameByProviderID simScaleSetID = ("vmss-pool-0".toList, none)
    ∧ simAzure.vmssGet (simCloudScaleSet (simScaleSet (some [⟨none, ⟨"ipconfig".toList⟩⟩])))
        "vmss-pool-0".toList = .ok (simScaleSet (some [⟨none, ⟨"ipconfig".toList⟩⟩]))
    ∧ CreateOrUpdateVMPulicIP simAzure simEnv "vmss-pool-0_3".toList simScaleSetID
        "vmss-pool-0_3-ip".toList
        ⟨simCloudScaleSet (simScaleSet (some [⟨none, ⟨"ipconfig".toList⟩⟩])), []⟩
      = (⟨simCloudScaleSet (simScaleSet (some [⟨none, ⟨"ipconfig".toList⟩⟩])),
          [.vmssGet "vmss-pool-0".toList]⟩, .panic .nilDereference) := by
  refine ⟨simScaleSetID_vmss, rfl, ?_⟩
  rfl

/-- Calls of `getNetworkInterface`: the VM `Get`, then at most one NIC `Get`; the remote
state is not changed. -/
theorem getNetworkInterface_calls {σ : Type} (az : Azure σ) (vmName : GoString) (w : World σ) :
    (getNetworkInterface az vmName w).1.state = w.state
    ∧ ((getNetworkInterface az vmName w).1.trace = w.trace ++ [.vmGet vmName]
      ∨ ∃ nicName, (getNetworkInterface az vmName w).1.trace
          = w.trace ++ [.vmGet vmName, .nicGet nicName]) := by
  unfold getNetworkInterface getVM
  simp only [World.read]
  repeat' split
  all_goals simp only [Prod.mk.injEq] at *
  all_goals casesm* _ ∧ _
  all_goals subst_vars
  all_goals simp

/-- When `getNetworkInterface` returns an interface, it is the answer of the NIC `Get` that
followed the VM `Get`. -/
theorem getNetworkInterface_ok_inv {σ : Type} (az : Azure σ) (vmName : GoString)
    (w w1 : World σ) (nic : Interface)
    (h : getNetworkInterface az vmName w = (w1, .ok nic)) :
    ∃ nicName, az.nicGet w.state nicName = .ok nic
      ∧ w1 = ⟨w.state, w.trace ++ [.vmGet vmName, .nicGet nicName]⟩ := by
  unfold getNetworkInterface getVM at h
  simp only [World.read] at h
  repeat' split at h
  all_goals simp only [Prod.mk.injEq, reduceCtorEq, and_false, Ret.ok.injEq] at h
  all_goals simp only [Prod.mk.injEq] at *
  all_goals casesm* _ ∧ _
  all_goals subst_vars
  all_goals exact ⟨_, by assumption, by simp⟩

/-- Calls of `createPublicIP`: the IP `CreateOrUpdate` for `ipName`, then the wait on it, then
the fetch of its result, stopping at the first failure. -/
theorem createPublicIP_calls {σ : Type} (az : Azure σ) (env : Env) (ipName : GoString)
    (w : World σ) :
    ((createPublicIP az env ipName w).1.trace
          = w.trace ++ [.ipCreateOrUpdate ipName (publicIPParameters env ipName)]
        ∧ ∀ ip, (createPublicIP az env ipName w).2 ≠ .ok ip)
    ∨ (∃ future, (createPublicIP az env ipName w).1.trace
          = w.trace ++ [.ipCreateOrUpdate ipName (publicIPParameters env ipName),
              .waitForCompletion future]
        ∧ ∀ ip, (createPublicIP az env ipName w).2 ≠ .ok ip)
    ∨ (∃ future, (createPublicIP az env ipName w).1.trace
          = w.trace ++ [.ipCreateOrUpdate ipName (publicIPParameters env ipName),
              .waitForCompletion future, .ipResult future]) := by
  unfold createPublicIP
  simp only [World.call]
  repeat' split
  all_goals simp only [Prod.mk.injEq] at *
  all_goals casesm* _ ∧ _
  all_goals subst_vars
  all_goals simp

/-- When `createPublicIP` returns an IP, the control plane accepted the `CreateOrUpdate` for
`ipName`, completed the operation and answered the fetch of its result with that IP. -/
theorem createPublicIP_ok_inv {σ : Type} (az : Azure σ) (env : Env) (ipName : GoString)
    (w w2 : World σ) (ip : PublicIPAddress)
    (h : createPublicIP az env ipName w = (w2, .ok ip)) :
    ∃ future s1 s2 s3,
      az.ipCreateOrUpdate w.state ipName (publicIPParameters env ipName) = (s1, .ok future)
      ∧ az.waitForCompletion s1 future = (s2, none)
      ∧ az.ipResult s2 future = (s3, .ok ip)
      ∧ w2 = ⟨s3, w.trace ++ [.ipCreateOrUpdate ipName (publicIPParameters env ipName),
          .waitForCompletion future, .ipResult future]⟩ := by
  rcases h1 : az.ipCreateOrUpdate w.state ipName (publicIPParameters env ipName)
    with ⟨s1, e | future⟩
  · simp [createPublicIP, World.call, h1] at h
  · rcases h2 : az.waitForCompletion s1 future with ⟨s2, _ | e⟩
    · rcases h3 : az.ipResult s2 future with ⟨s3, e | ip2⟩
      · simp [createPublicIP, World.call, h1, h2, h3] at h
      · simp [createPublicIP, World.call, h1, h2, h3] at h
        exact ⟨future, s1, s2, s3, rfl, h2, by rw [h3, h.2], h.1.symm⟩
    · simp [createPublicIP, World.call, h1, h2] at h

/-- The calls of `getNetworkInterface` are reads. -/
theorem getNetworkInterface_reads {σ : Type} (az : Azure σ) (vmName : GoString) (w : World σ) :
    ∃ calls, (getNetworkInterface az vmName w).1.trace = w.trace ++ calls
      ∧ ∀ c ∈ calls, (∀ n, c ≠ .ipDelete n) ∧ (∀ n, c ≠ .nicDelete n)
          ∧ (∀ n x, c ≠ .nicCreateOrUpdate n x) := by
  rcases (getNetworkInterface_calls az vmName w).2 with h | ⟨n, h⟩
  · exact ⟨_, h, by simp⟩
  · exact ⟨_, h, by simp⟩

/-- The calls of `createPublicIP` create the IP; none deletes or touches an interface. -/
theorem createPublicIP_creates {σ : Type} (az : Azure σ) (env : Env) (ipName : GoString)
    (w : World σ) :
    ∃ calls, (createPublicIP az env ipName w).1.trace = w.trace ++ calls
      ∧ ∀ c ∈ calls, (∀ n, c ≠ .ipDelete n) ∧ (∀ n, c ≠ .nicDelete n)
          ∧ (∀ n x, c ≠ .nicCreateOrUpdate n x) := by
  rcases createPublicIP_calls az env ipName w with h | ⟨f, h⟩ | ⟨f, h⟩
  · exact ⟨_, h.1, by simp⟩
  · exact ⟨_, h.1, by simp⟩
  · exact ⟨_, h, by simp⟩

/-- The first call of `createPublicIP` is the IP `CreateOrUpdate` for `ipName`. -/
theorem createPublicIP_first_call {σ : Type} (az : Azure σ) (env : Env) (ipName : GoString)
    (w : World σ) :
    ∃ tail, (createPublicIP az env ipName w).1.trace
      = w.trace ++ (.ipCreateOrUpdate ipName (publicIPParameters env ipName) :: tail) := by
  rcases createPublicIP_calls az env ipName w with h | ⟨f, h⟩ | ⟨f, h⟩
  · exact ⟨[], h.1⟩
  · exact ⟨_, h.1⟩
  · exact ⟨_, h⟩

/-- A run whose calls are reads and IP creations issues no `Delete` and no NIC update. -/
theorem no_delete_no_nic_update (prior calls trace : List Call) (h : trace = prior ++ calls)
    (hcalls : ∀ c ∈ calls, (∀ n, c ≠ .ipDelete n) ∧ (∀ n, c ≠ .nicDelete n)
      ∧ (∀ n x, c ≠ .nicCreateOrUpdate n x)) :
    (∀ c ∈ trace.drop prior.length, (∀ n, c ≠ Call.ipDelete n) ∧ (∀ n, c ≠ Call.nicDelete n))
    ∧ (∀ n x, Call.nicCreateOrUpdate n x ∉ trace.drop prior.length) := by
  subst h
  rw [List.drop_left]
  refine ⟨fun c hc => ⟨(hcalls c hc).1, (hcalls c hc).2.1⟩, ?_⟩
  intro n x hmem
  exact (hcalls _ hmem).2.2 n x rfl

/-- The last part of `CreateOrUpdateVMPulicIP` for a standalone node, once the interface is
fetched and the IP created: a panic before any further call, or the NIC `CreateOrUpdate`
alone when it fails, or the NIC `CreateOrUpdate` followed by the wait on it. -/
theorem association_last_step {σ : Type} (az : Azure σ) (env : Env)
    (vmName providerID ipName scaleSet : GoString) (e0 : GoError) (w w1 w2 : World σ)
    (nic : Interface) (ip : PublicIPAddress)
    (hx : extractScaleSetNameByProviderID providerID = (scaleSet, some e0))
    (hg : getNetworkInterface az vmName w = (w1, .ok nic))
    (hc : createPublicIP az env ipName w1 = (w2, .ok ip)) :
    (∃ p, CreateOrUpdateVMPulicIP az env vmName providerID ipName w = (w2, .panic p))
    ∨ (∃ name nic1 s e, setPublicIPOfFirstConfiguration nic (some ip) = .ok (name, nic1)
        ∧ az.nicCreateOrUpdate w2.state name nic1 = (s, .error e)
        ∧ CreateOrUpdateVMPulicIP az env vmName providerID ipName w
          = (⟨s, w2.trace ++ [.nicCreateOrUpdate name nic1]⟩,
              .err (.wrapf "cannot update NIC for Node %s: %v" [vmName] e)))
    ∨ (∃ name nic1 s f s2 r, setPublicIPOfFirstConfiguration nic (some ip) = .ok (name, nic1)
        ∧ az.nicCreateOrUpdate w2.state name nic1 = (s, .ok f)
        ∧ az.waitForCompletion s f = (s2, r)
        ∧ CreateOrUpdateVMPulicIP az env vmName providerID ipName w
          = (⟨s2, w2.trace ++ [.nicCreateOrUpdate name nic1, .waitForCompletion f]⟩,
              match r with
              | some e => .err (.wrapf "cannot get NIC CreateOrUpdate response for Node %s: %v"
                  [vmName] e)
              | none => .ok ())) := by
  cases hset : setPublicIPOfFirstConfiguration nic (some ip) with
  | error p =>
    left
    exact ⟨p, by simp only [CreateOrUpdateVMPulicIP, hx, hg, hc, hset]⟩
  | ok pair =>
    obtain ⟨name, nic1⟩ := pair
    right
    rcases hn : az.nicCreateOrUpdate w2.state name nic1 with ⟨s, e | f⟩
    · left
      refine ⟨name, nic1, s, e, rfl, hn, ?_⟩
      simp only [CreateOrUpdateVMPulicIP, hx, hg, hc, hset, World.call, hn]
    · right
      rcases hw : az.waitForCompletion s f with ⟨s2, r⟩
      refine ⟨name, nic1, s, f, s2, r, rfl, hn, hw, ?_⟩
      cases r with
      | none =>
        simp [CreateOrUpdateVMPulicIP, hx, hg, hc, hset, World.call, hn, hw]
      | some e =>
        simp [CreateOrUpdateVMPulicIP, hx, hg, hc, hset, World.call, hn, hw]

/-- Safety of the association flow: no run of `CreateOrUpdateVMPulicIP` on a standalone node
issues a `Delete`, and a run that issues the NIC `CreateOrUpdate` has before it fetched the
interface, had the IP `CreateOrUpdate` for `ipName` accepted, waited for its completion and
been answered the created IP, which the submitted interface carries. -/
theorem association_order {σ : Type} (az : Azure σ) (env : Env)
    (vmName providerID ipName scaleSet : GoString) (e0 : GoError) (w : World σ)
    (hx : extractScaleSetNameByProviderID providerID = (scaleSet, some e0)) :
    (∀ c ∈ (CreateOrUpdateVMPulicIP az env vmName providerID ipName w).1.trace.drop
        w.trace.length, (∀ n, c ≠ .ipDelete n) ∧ (∀ n, c ≠ .nicDelete n))
    ∧ (∀ name nic1, .nicCreateOrUpdate name nic1 ∈
          (CreateOrUpdateVMPulicIP az env vmName providerID ipName w).1.trace.drop
            w.trace.length →
        ∃ nicName nic properties first rest firstProperties future ip s1 s2 s3 tail,
          az.nicGet w.state nicName = .ok nic
          ∧ az.ipCreateOrUpdate w.state ipName (publicIPParameters env ipName)
              = (s1, .ok future)
          ∧ az.waitForCompletion s1 future = (s2, none)
          ∧ az.ipResult s2 future = (s3, .ok ip)
          ∧ nic.InterfacePropertiesFormat = some properties
          ∧ properties.IPConfigurations = some (first :: rest)
          ∧ first.InterfaceIPConfigurationPropertiesFormat = some firstProperties
          ∧ nic1 =
            { nic with
              InterfacePropertiesFormat := some
                { properties with
                  IPConfigurations := some
                    ({ first with
                       InterfaceIPConfigurationPropertiesFormat := some
                         { firstProperties with PublicIPAddress := some ip } } :: rest) } }
          ∧ (CreateOrUpdateVMPulicIP az env vmName providerID ipName w).1.trace
              = w.trace ++ ([.vmGet vmName, .nicGet nicName,
                  .ipCreateOrUpdate ipName (publicIPParameters env ipName),
                  .waitForCompletion future, .ipResult future,
                  .nicCreateOrUpdate name nic1] ++ tail)
          ∧ (tail = [] ∨ ∃ f, tail = [.waitForCompletion f])) := by
  obtain ⟨G, hGt, hGe⟩ := getNetworkInterface_reads az vmName w
  rcases hg : getNetworkInterface az vmName w with ⟨w1, nic | e | p⟩
  case mk.err =>
    rw [hg] at hGt
    have hout : CreateOrUpdateVMPulicIP az env vmName providerID ipName w
        = (w1, .err (.wrapf "cannot get network interface: %v" [] e)) := by
      simp only [CreateOrUpdateVMPulicIP, hx, hg]
    have hno := no_delete_no_nic_update w.trace G w1.trace hGt hGe
    rw [hout]
    exact ⟨hno.1, fun n x hmem => absurd hmem (hno.2 n x)⟩
  case mk.panic =>
    rw [hg] at hGt
    have hout : CreateOrUpdateVMPulicIP az env vmName providerID ipName w
        = (w1, .panic p) := by
      simp only [CreateOrUpdateVMPulicIP, hx, hg]
    have hno := no_delete_no_nic_update w.trace G w1.trace hGt hGe
    rw [hout]
    exact ⟨hno.1, fun n x hmem => absurd hmem (hno.2 n x)⟩
  case mk.ok =>
    rw [hg] at hGt
    have hGt2 : w1.trace = w.trace ++ G := hGt
    obtain ⟨C, hCt, hCe⟩ := createPublicIP_creates az env ipName w1
    have hGCe : ∀ c ∈ G ++ C, (∀ n, c ≠ .ipDelete n) ∧ (∀ n, c ≠ .nicDelete n)
        ∧ (∀ n x, c ≠ .nicCreateOrUpdate n x) := by
      intro c hc
      rcases List.mem_append.1 hc with h | h
      · exact hGe c h
      · exact hCe c h
    rcases hc : createPublicIP az env ipName w1 with ⟨w2, ip | e | p⟩
    case mk.err =>
      rw [hc] at hCt
      have hCt2 : w2.trace = w.trace ++ (G ++ C) := by
        rw [← List.append_assoc, ← hGt2]
        exact hCt
      have hout : CreateOrUpdateVMPulicIP az env vmName providerID ipName w
          = (w2, .err (.wrapf "Cannot create Public IP for Node %s: %v" [vmName] e)) := by
        simp only [CreateOrUpdateVMPulicIP, hx, hg, hc]
      have hno := no_delete_no_nic_update w.trace (G ++ C) w2.trace hCt2 hGCe
      rw [hout]
      exact ⟨hno.1, fun n x hmem => absurd hmem (hno.2 n x)⟩
    case mk.panic =>
      rw [hc] at hCt
      have hCt2 : w2.trace = w.trace ++ (G ++ C) := by
        rw [← List.append_assoc, ← hGt2]
        exact hCt
      have hout : CreateOrUpdateVMPulicIP az env vmName providerID ipName w
          = (w2, .panic p) := by
        simp only [CreateOrUpdateVMPulicIP, hx, hg, hc]
      have hno := no_delete_no_nic_update w.trace (G ++ C) w2.trace hCt2 hGCe
      rw [hout]
      exact ⟨hno.1, fun n x hmem => absurd hmem (hno.2 n x)⟩
    case mk.ok =>
      rw [hc] at hCt
      have hCt2 : w2.trace = w.trace ++ (G ++ C) := by
        rw [← List.append_assoc, ← hGt2]
        exact hCt
      obtain ⟨nicName, hnicGet, hw1⟩ := getNetworkInterface_ok_inv az vmName w w1 nic hg
      obtain ⟨future, s1, s2, s3, hcou, hwait, hres, hw2⟩ :=
        createPublicIP_ok_inv az env ipName w1 w2 ip hc
      have hw1s : w1.state = w.state := by rw [hw1]
      have hw2t : w2.trace = w.trace ++ [.vmGet vmName, .nicGet nicName,
          .ipCreateOrUpdate ipName (publicIPParameters env ipName),
          .waitForCompletion future, .ipResult future] := by
        rw [hw2, hw1]
        simp
      rw [hw1s] at hcou
      rcases association_last_step az env vmName providerID ipName scaleSet e0 w w1 w2 nic ip
          hx hg hc with
        ⟨p, hout⟩ | ⟨name, nic1, s, e, hset, hn, hout⟩
          | ⟨name, nic1, s, f, s4, r, hset, hn, hw, hout⟩
      · have hno := no_delete_no_nic_update w.trace (G ++ C) w2.trace hCt2 hGCe
        rw [hout]
        exact ⟨hno.1, fun n x hmem => absurd hmem (hno.2 n x)⟩
      · obtain ⟨properties, first, rest, firstProperties, nicID, h1, h2, h3, _, _, hnic1⟩ :=
          setPublicIPOfFirstConfiguration_inv nic nic1 (some ip) name hset
        have htrace : (CreateOrUpdateVMPulicIP az env vmName providerID ipName w).1.trace
            = w.trace ++ ([.vmGet vmName, .nicGet nicName,
                .ipCreateOrUpdate ipName (publicIPParameters env ipName),
                .waitForCompletion future, .ipResult future,
                .nicCreateOrUpdate name nic1] ++ []) := by
          rw [hout]
          simp [hw2t]
        rw [htrace, List.drop_left]
        refine ⟨by simp, ?_⟩
        intro name2 nic2 hmem
        simp only [List.append_nil, List.mem_cons, reduceCtorEq, Call.nicCreateOrUpdate.injEq,
          List.not_mem_nil, or_false, false_or] at hmem
        obtain ⟨rfl, rfl⟩ := hmem
        exact ⟨nicName, nic, properties, first, rest, firstProperties, future, ip, s1, s2, s3,
          [], hnicGet, hcou, hwait, hres, h1, h2, h3, hnic1, rfl, Or.inl rfl⟩
      · obtain ⟨properties, first, rest, firstProperties, nicID, h1, h2, h3, _, _, hnic1⟩ :=
          setPublicIPOfFirstConfiguration_inv nic nic1 (some ip) name hset
        have htrace : (CreateOrUpdateVMPulicIP az env vmName providerID ipName w).1.trace
            = w.trace ++ ([.vmGet vmName, .nicGet nicName,
                .ipCreateOrUpdate ipName (publicIPParameters env ipName),
                .waitForCompletion future, .ipResult future,
                .nicCreateOrUpdate name nic1] ++ [.waitForCompletion f]) := by
          rw [hout]
          simp [hw2t]
        rw [htrace, List.drop_left]
        refine ⟨by simp, ?_⟩
        intro name2 nic2 hmem
        simp only [List.cons_append, List.nil_append, List.mem_cons, reduceCtorEq,
          Call.nicCreateOrUpdate.injEq, List.not_mem_nil, or_false, false_or] at hmem
        obtain ⟨rfl, rfl⟩ := hmem
        exact ⟨nicName, nic, properties, first, rest, firstProperties, future, ip, s1, s2, s3,
          [.waitForCompletion f], hnicGet, hcou, hwait, hres, h1, h2, h3, hnic1, rfl,
          Or.inr ⟨f, rfl⟩⟩

/-- Progress of the association flow: once the interface of a standalone node is fetched,
the next call is the IP `CreateOrUpdate` for `ipName`. -/
theorem association_issues_creation {σ : Type} (az : Azure σ) (env : Env)
    (vmName providerID ipName scaleSet : GoString) (e0 : GoError) (w w1 : World σ)
    (nic : Interface)
    (hx : extractScaleSetNameByProviderID providerID = (scaleSet, some e0))
    (hg : getNetworkInterface az vmName w = (w1, .ok nic)) :
    ∃ tail, (CreateOrUpdateVMPulicIP az env vmName providerID ipName w).1.trace
      = w1.trace ++ (.ipCreateOrUpdate ipName (publicIPParameters env ipName) :: tail) := by
  obtain ⟨tail, htail⟩ := createPublicIP_first_call az env ipName w1
  rcases hc : createPublicIP az env ipName w1 with ⟨w2, ip | e | p⟩
  case mk.err =>
    rw [hc] at htail
    exact ⟨tail, by simp only [CreateOrUpdateVMPulicIP, hx, hg, hc]; exact htail⟩
  case mk.panic =>
    rw [hc] at htail
    exact ⟨tail, by simp only [CreateOrUpdateVMPulicIP, hx, hg, hc]; exact htail⟩
  case mk.ok =>
    rw [hc] at htail
    have htail2 : w2.trace
        = w1.trace ++ (.ipCreateOrUpdate ipName (publicIPParameters env ipName) :: tail) :=
      htail
    rcases association_last_step az env vmName providerID ipName scaleSet e0 w w1 w2 nic ip
        hx hg hc with
      ⟨p, hout⟩ | ⟨name, nic1, s, e, _, _, hout⟩ | ⟨name, nic1, s, f, s4, r, _, _, _, hout⟩
    · exact ⟨tail, by rw [hout]; exact htail2⟩
    · exact ⟨tail ++ [.nicCreateOrUpdate name nic1], by rw [hout]; simp [htail2]⟩
    · exact ⟨tail ++ [.nicCreateOrUpdate name nic1, .waitForCompletion f],
        by rw [hout]; simp [htail2]⟩

/-- Progress of the association flow, call by call: when the VM and its first interface are
fetched, the IP `CreateOrUpdate` for `ipName` is accepted, its operation completes and its
result is fetched, and every pointer on the way to IP configuration 0 of the interface is
set, the NIC `CreateOrUpdate` is issued with the created IP in that configuration, and the
run ends as the NIC update and the wait on it end. -/
theorem association_progress {σ : Type} (az : Azure σ) (env : Env)
    (vmName providerID ipName scaleSet : GoString) (e0 : GoError) (w : World σ)
    (vm : VirtualMachine) (vmProperties : VirtualMachineProperties)
    (networkProfile : NetworkProfile) (reference : NetworkInterfaceReference)
    (references : List NetworkInterfaceReference) (nicFullName nicName nicID name : GoString)
    (nic nic1 : Interface) (properties : InterfacePropertiesFormat)
    (first : InterfaceIPConfiguration) (rest : List InterfaceIPConfiguration)
    (firstProperties : InterfaceIPConfigurationPropertiesFormat)
    (future : Future) (ip : PublicIPAddress) (s1 s2 s3 : σ)
    (hx : extractScaleSetNameByProviderID providerID = (scaleSet, some e0))
    (hvm : az.vmGet w.state vmName = .ok vm)
    (hvmProps : vm.VirtualMachineProperties = some vmProperties)
    (hprofile : vmProperties.NetworkProfile = some networkProfile)
    (hrefs : networkProfile.NetworkInterfaces = some (reference :: references))
    (hrefID : reference.ID = some nicFullName)
    (hnicName : getResourceName nicFullName = .ok nicName)
    (hnic : az.nicGet w.state nicName = .ok nic)
    (hcou : az.ipCreateOrUpdate w.state ipName (publicIPParameters env ipName)
      = (s1, .ok future))
    (hwait : az.waitForCompletion s1 future = (s2, none))
    (hres : az.ipResult s2 future = (s3, .ok ip))
    (hprops : nic.InterfacePropertiesFormat = some properties)
    (hcfgs : properties.IPConfigurations = some (first :: rest))
    (hfirst : first.InterfaceIPConfigurationPropertiesFormat = some firstProperties)
    (hnicID : nic.ID = some nicID)
    (hname : getResourceName nicID = .ok name)
    (hnic1 : nic1 =
      { nic with
        InterfacePropertiesFormat := some
          { properties with
            IPConfigurations := some
              ({ first with
                 InterfaceIPConfigurationPropertiesFormat := some
                   { firstProperties with PublicIPAddress := some ip } } :: rest) } }) :
    (∀ s4 e, az.nicCreateOrUpdate s3 name nic1 = (s4, .error e) →
      CreateOrUpdateVMPulicIP az env vmName providerID ipName w
        = (⟨s4, w.trace ++ [.vmGet vmName, .nicGet nicName,
              .ipCreateOrUpdate ipName (publicIPParameters env ipName),
              .waitForCompletion future, .ipResult future, .nicCreateOrUpdate name nic1]⟩,
            .err (.wrapf "cannot update NIC for Node %s: %v" [vmName] e)))
    ∧ (∀ s4 f s5 e, az.nicCreateOrUpdate s3 name nic1 = (s4, .ok f) →
        az.waitForCompletion s4 f = (s5, some e) →
        CreateOrUpdateVMPulicIP az env vmName providerID ipName w
          = (⟨s5, w.trace ++ [.vmGet vmName, .nicGet nicName,
                .ipCreateOrUpdate ipName (publicIPParameters env ipName),
                .waitForCompletion future, .ipResult future, .nicCreateOrUpdate name nic1,
                .waitForCompletion f]⟩,
              .err (.wrapf "cannot get NIC CreateOrUpdate response for Node %s: %v"
                [vmName] e)))
    ∧ (∀ s4 f s5, az.nicCreateOrUpdate s3 name nic1 = (s4, .ok f) →
        az.waitForCompletion s4 f = (s5, none) →
        CreateOrUpdateVMPulicIP az env vmName providerID ipName w
          = (⟨s5, w.trace ++ [.vmGet vmName, .nicGet nicName,
                .ipCreateOrUpdate ipName (publicIPParameters env ipName),
                .waitForCompletion future, .ipResult future, .nicCreateOrUpdate name nic1,
                .waitForCompletion f]⟩, .ok ())) := by
  have hg : getNetworkInterface az vmName w
      = (⟨w.state, w.trace ++ [.vmGet vmName, .nicGet nicName]⟩, .ok nic) := by
    simp [getNetworkInterface, getVM, World.read, hvm, hvmProps, hprofile, hrefs, hrefID,
      hnicName, hnic, deref, index, bind, Except.bind]
  have hc : createPublicIP az env ipName ⟨w.state, w.trace ++ [.vmGet vmName, .nicGet nicName]⟩
      = (⟨s3, w.trace ++ [.vmGet vmName, .nicGet nicName,
            .ipCreateOrUpdate ipName (publicIPParameters env ipName),
            .waitForCompletion future, .ipResult future]⟩, .ok ip) := by
    simp [createPublicIP, World.call, hcou, hwait, hres]
  have hset := setPublicIPOfFirstConfiguration_ok nic (some ip) properties first rest
    firstProperties nicID name hprops hcfgs hfirst hnicID hname
  rw [← hnic1] at hset
  refine ⟨?_, ?_, ?_⟩
  · intro s4 e h
    simp [CreateOrUpdateVMPulicIP, hx, hg, hc, hset, World.call, h]
  · intro s4 f s5 e h1 h2
    simp [CreateOrUpdateVMPulicIP, hx, hg, hc, hset, World.call, h1, h2]
  · intro s4 f s5 h1 h2
    simp [CreateOrUpdateVMPulicIP, hx, hg, hc, hset, World.call, h1, h2]

/-- Claim C5. Association commits in order without rollback.  For a standalone node
(providerID not of scale-set shape): no run of `CreateOrUpdateVMPulicIP` issues a `Delete`;
a run that issues the NIC `CreateOrUpdate` has before it, in this order, fetched the
interface, had the public-IP `CreateOrUpdate` for `ipName` accepted, completed the wait on
it and been answered the created IP, and the interface it submits is the fetched one with
IP configuration 0 pointing at exactly that IP; once the interface is fetched the IP
`CreateOrUpdate` for `ipName` is the next call; and when the creation succeeds and the
fetched interface has its IP configuration 0, the NIC `CreateOrUpdate` is issued, a failure
of it or of the wait on it makes the function return an error with no further call (the
created IP is not deleted), and their success makes it return `nil`. -/
theorem C5_association_commits_in_order_without_rollback {σ : Type} (az : Azure σ) (env : Env)
    (vmName providerID ipName : GoString) (w : World σ)
    (hnot : (extractScaleSetNameByProviderID providerID).2 ≠ none) :
    (∀ c ∈ (CreateOrUpdateVMPulicIP az env vmName providerID ipName w).1.trace.drop
        w.trace.length, (∀ n, c ≠ .ipDelete n) ∧ (∀ n, c ≠ .nicDelete n))
    ∧ (∀ name nic1, .nicCreateOrUpdate name nic1 ∈
          (CreateOrUpdateVMPulicIP az env vmName providerID ipName w).1.trace.drop
            w.trace.length →
        ∃ nicName nic properties first rest firstProperties future ip s1 s2 s3 tail,
          az.nicGet w.state nicName = .ok nic
          ∧ az.ipCreateOrUpdate w.state ipName (publicIPParameters env ipName)
              = (s1, .ok future)
          ∧ az.waitForCompletion s1 future = (s2, none)
          ∧ az.ipResult s2 future = (s3, .ok ip)
          ∧ nic.InterfacePropertiesFormat = some properties
          ∧ properties.IPConfigurations = some (first :: rest)
          ∧ first.InterfaceIPConfigurationPropertiesFormat = some firstProperties
          ∧ nic1 =
            { nic with
              InterfacePropertiesFormat := some
                { properties with
                  IPConfigurations := some
                    ({ first with
                       InterfaceIPConfigurationPropertiesFormat := some
                         { firstProperties with PublicIPAddress := some ip } } :: rest) } }
          ∧ (CreateOrUpdateVMPulicIP az env vmName providerID ipName w).1.trace
              = w.trace ++ ([.vmGet vmName, .nicGet nicName,
                  .ipCreateOrUpdate ipName (publicIPParameters env ipName),
                  .waitForCompletion future, .ipResult future,
                  .nicCreateOrUpdate name nic1] ++ tail)
          ∧ (tail = [] ∨ ∃ f, tail = [.waitForCompletion f]))
    ∧ (∀ w1 nic, getNetworkInterface az vmName w = (w1, .ok nic) →
        ∃ tail, (CreateOrUpdateVMPulicIP az env vmName providerID ipName w).1.trace
          = w1.trace ++ (.ipCreateOrUpdate ipName (publicIPParameters env ipName) :: tail))
    ∧ (∀ (vm : VirtualMachine) (vmProperties : VirtualMachineProperties)
        (networkProfile : NetworkProfile) (reference : NetworkInterfaceReference)
        (references : List NetworkInterfaceReference)
        (nicFullName nicName nicID name : GoString)
        (nic nic1 : Interface) (properties : InterfacePropertiesFormat)
        (first : InterfaceIPConfiguration) (rest : List InterfaceIPConfiguration)
        (firstProperties : InterfaceIPConfigurationPropertiesFormat)
        (future : Future) (ip : PublicIPAddress) (s1 s2 s3 : σ),
        az.vmGet w.state vmName = .ok vm →
        vm.VirtualMachineProperties = some vmProperties →
        vmProperties.NetworkProfile = some networkProfile →
        networkProfile.NetworkInterfaces = some (reference :: references) →
        reference.ID = some nicFullName →
        getResourceName nicFullName = .ok nicName →
        az.nicGet w.state nicName = .ok nic →
        az.ipCreateOrUpdate w.state ipName (publicIPParameters env ipName)
          = (s1, .ok future) →
        az.waitForCompletion s1 future = (s2, none) →
        az.ipResult s2 future = (s3, .ok ip) →
        nic.InterfacePropertiesFormat = some properties →
        properties.IPConfigurations = some (first :: rest) →
        first.InterfaceIPConfigurationPropertiesFormat = some firstProperties →
        nic.ID = some nicID →
        getResourceName nicID = .ok name →
        nic1 =
          { nic with
            InterfacePropertiesFormat := some
              { properties with
                IPConfigurations := some
                  ({ first with
                     InterfaceIPConfigurationPropertiesFormat := some
                       { firstProperties with PublicIPAddress := some ip } } :: rest) } } →
        (∀ s4 e, az.nicCreateOrUpdate s3 name nic1 = (s4, .error e) →
          CreateOrUpdateVMPulicIP az env vmName providerID ipName w
            = (⟨s4, w.trace ++ [.vmGet vmName, .nicGet nicName,
                  .ipCreateOrUpdate ipName (publicIPParameters env ipName),
                  .waitForCompletion future, .ipResult future,
                  .nicCreateOrUpdate name nic1]⟩,
                .err (.wrapf "cannot update NIC for Node %s: %v" [vmName] e)))
        ∧ (∀ s4 f s5 e, az.nicCreateOrUpdate s3 name nic1 = (s4, .ok f) →
            az.waitForCompletion s4 f = (s5, some e) →
            CreateOrUpdateVMPulicIP az env vmName providerID ipName w
              = (⟨s5, w.trace ++ [.vmGet vmName, .nicGet nicName,
                    .ipCreateOrUpdate ipName (publicIPParameters env ipName),
                    .waitForCompletion future, .ipResult future,
                    .nicCreateOrUpdate name nic1, .waitForCompletion f]⟩,
                  .err (.wrapf "cannot get NIC CreateOrUpdate response for Node %s: %v"
                    [vmName] e)))
        ∧ (∀ s4 f s5, az.nicCreateOrUpdate s3 name nic1 = (s4, .ok f) →
            az.waitForCompletion s4 f = (s5, none) →
            CreateOrUpdateVMPulicIP az env vmName providerID ipName w
              = (⟨s5, w.trace ++ [.vmGet vmName, .nicGet nicName,
                    .ipCreateOrUpdate ipName (publicIPParameters env ipName),
                    .waitForCompletion future, .ipResult future,
                    .nicCreateOrUpdate name nic1, .waitForCompletion f]⟩, .ok ()))) := by
  rcases hx : extractScaleSetNameByProviderID providerID with ⟨scaleSet, _ | e0⟩
  · rw [hx] at hnot
    simp at hnot
  · have horder := association_order az env vmName providerID ipName scaleSet e0 w hx
    refine ⟨horder.1, horder.2, ?_, ?_⟩
    · intro w1 nic hg
      exact association_issues_creation az env vmName providerID ipName scaleSet e0 w w1 nic
        hx hg
    · intro vm vmProperties networkProfile reference references nicFullName nicName nicID name
        nic nic1 properties first rest firstProperties future ip s1 s2 s3
        hvm hvmProps hprofile hrefs hrefID hnicName hnic hcou hwait hres hprops hcfgs hfirst
        hnicID hname hnic1
      exact association_progress az env vmName providerID ipName scaleSet e0 w vm vmProperties
        networkProfile reference references nicFullName nicName nicID name nic nic1 properties
        first rest firstProperties future ip s1 s2 s3 hx hvm hvmProps hprofile hrefs hrefID
        hnicName hnic hcou hwait hres hprops hcfgs hfirst hnicID hname hnic1

set_option maxRecDepth 100000 in
/-- Witness for C5: associating `worker-1-ip` with the standalone node `worker-1`.  Where the
platform rejects the interface update, the function returns the error after the six calls
up to the NIC `CreateOrUpdate`, and the created IP is still there; where it accepts the
update, the function returns `nil`. -/
theorem C5_association_commits_in_order_without_rollback_witness :
    (CreateOrUpdateVMPulicIP simAzure simEnv "worker-1".toList simStandaloneID
        "worker-1-ip".toList ⟨simCloud (simNic none) [] [] true, []⟩).2
      = .err (.wrapf "cannot update NIC for Node %s: %v" ["worker-1".toList] conflict)
    ∧ (CreateOrUpdateVMPulicIP simAzure simEnv "worker-1".toList simStandaloneID
        "worker-1-ip".toList ⟨simCloud (simNic none) [] [] true, []⟩).1.trace
      = [] ++ [.vmGet "worker-1".toList, .nicGet "worker-1-nic".toList,
          .ipCreateOrUpdate "worker-1-ip".toList (publicIPParameters simEnv "worker-1-ip".toList),
          .waitForCompletion ⟨0⟩, .ipResult ⟨0⟩,
          .nicCreateOrUpdate "worker-1-nic".toList
            (simNic (some (publicIPParameters simEnv "worker-1-ip".toList)))]
    ∧ simAzure.ipGet
        (CreateOrUpdateVMPulicIP simAzure simEnv "worker-1".toList simStandaloneID
          "worker-1-ip".toList ⟨simCloud (simNic none) [] [] true, []⟩).1.state
        "worker-1-ip".toList
      = .ok (publicIPParameters simEnv "worker-1-ip".toList)
    ∧ (CreateOrUpdateVMPulicIP simAzure simEnv "worker-1".toList simStandaloneID
        "worker-1-ip".toList ⟨simCloudFresh, []⟩).2 = .ok () :=
  ⟨congrArg Prod.snd
      (((C5_association_commits_in_order_without_rollback simAzure simEnv "worker-1".toList
        simStandaloneID "worker-1-ip".toList ⟨simCloud (simNic none) [] [] true, []⟩
        (by rw [simStandaloneID_not_vmss]; simp)).2.2.2
        _ _ _ _ _ _ "worker-1-nic".toList _ "worker-1-nic".toList _ _ _ _ _ _ ⟨0⟩ _ _ _ _
        rfl rfl rfl rfl rfl rfl rfl rfl rfl rfl rfl rfl rfl rfl rfl rfl).1 _ conflict rfl),
    congrArg (fun out => out.1.trace)
      (((C5_association_commits_in_order_without_rollback simAzure simEnv "worker-1".toList
        simStandaloneID "worker-1-ip".toList ⟨simCloud (simNic none) [] [] true, []⟩
        (by rw [simStandaloneID_not_vmss]; simp)).2.2.2
        _ _ _ _ _ _ "worker-1-nic".toList _ "worker-1-nic".toList _ _ _ _ _ _ ⟨0⟩ _ _ _ _
        rfl rfl rfl rfl rfl rfl rfl rfl rfl rfl rfl rfl rfl rfl rfl rfl).1 _ conflict rfl),
    rfl,
    congrArg Prod.snd
      (((C5_association_commits_in_order_without_rollback simAzure simEnv "worker-1".toList
        simStandaloneID "worker-1-ip".toList ⟨simCloudFresh, []⟩
        (by rw [simStandaloneID_not_vmss]; simp)).2.2.2
        _ _ _ _ _ _ "worker-1-nic".toList _ "worker-1-nic".toList _ _ _ _ _ _ ⟨0⟩ _ _ _ _
        rfl rfl rfl rfl rfl rfl rfl rfl rfl rfl rfl rfl rfl rfl rfl rfl).2.2 _ ⟨0⟩ _ rfl rfl)⟩

end Helpers
